import Mathlib

/-!
# Verification of the manufacturing-analytics-platform provisioning scripts

Shallow embedding of the repository's three Python modules:

* `create-default-dashboard.py` — the ORM-path script that looks up or creates
  datasets (`SqlaTable`), charts (`Slice`) and one dashboard through the BI
  platform's ORM session (`OrmState` below, functions `getOrCreateTable`,
  `create_or_get_slice`, `create_manufacturing_dashboard`, `ormMain`).
* `superset/superset_config.py` — the configuration module's startup hook
  (`init_manufacturing_database`, `customInitApp`).
* `scripts/superset/automated-dashboard-creator.py` — the REST-path creator
  (`SupersetDashboardCreator`): `wait_for_superset`, `get_database_id`,
  `create_dataset`, `create_chart`, `create_dashboard`, the four dashboard
  builders and `create_all_dashboards`.

Modelling conventions:
* JSON values built by the scripts (`json.dumps(...)` payloads) are modelled
  structurally by the inductive `JVal`; `json.dumps` is treated as the
  (injective) identity, i.e. rows store the JSON value rather than its
  serialized string.
* The external server / database session is explicit state.  Row identifiers
  are assigned from a `nextId` counter, modelling the platform's
  auto-increment primary keys.
* Network and commit failures are modelled by oracles: the REST `Oracle`
  decides, per request, whether the server answers with the success status
  code (a non-success code and a raised exception take the same branch in the
  source, so both are modelled as `false`); the ORM session's `commitOk`
  stream decides whether the n-th `db.session.commit()` raises.
* Python's truthiness test `if x:` on an optional integer is modelled
  faithfully by `truthy` (both `None` and `0` are falsy).
-/

/-- Structural JSON values (the payloads the scripts pass to `json.dumps`). -/
inductive JVal where
  | jnull : JVal
  | jbool : Bool → JVal
  | jnum : Int → JVal
  | jstr : String → JVal
  | jarr : List JVal → JVal
  | jobj : List (String × JVal) → JVal

/-- Key lookup in a JSON object (first binding wins, as in a Python dict). -/
def JVal.objLookup : JVal → String → Option JVal
  | .jobj l, k => l.lookup k
  | _, _ => none

/-- The `meta.chartId` field of a layout node. -/
def JVal.metaChartId (v : JVal) : Option JVal :=
  (v.objLookup "meta").bind (fun m => m.objLookup "chartId")

/-- A row of the platform's `Database` model (`superset.models.core.Database`):
the fields this repository sets in `superset_config.init_manufacturing_database`. -/
structure DatabaseRow where
  id : Nat
  database_name : String
  sqlalchemy_uri : String
  expose_in_sqllab : Bool
  allow_ctas : Bool
  allow_cvas : Bool
  allow_dml : Bool
  allow_multi_schema_metadata_fetch : Bool
deriving DecidableEq

/-- A row of the platform's `SqlaTable` model: the fields the ORM script sets. -/
structure SqlaTableRow where
  id : Nat
  table_name : String
  database_id : Nat
deriving DecidableEq

/-- A row of the platform's `Slice` (chart) model: the fields the ORM script sets. -/
structure SliceRow where
  id : Nat
  slice_name : String
  viz_type : String
  datasource_type : String
  datasource_id : Nat
  params : JVal

/-- A row of the platform's `Dashboard` model: the fields the ORM script sets
(`slices=charts` is modelled by the list of slice ids). -/
structure DashboardRow where
  id : Nat
  dashboard_title : String
  slug : String
  slice_ids : List Nat
  position_json : JVal
  published : Bool

/-- The ORM session state seen by `create-default-dashboard.py` and the
configuration module: the relevant tables of the platform's metadata
database, an id counter, and the commit-failure oracle (`commitOk n` tells
whether the n-th `db.session.commit()` of the run succeeds; `commitCtr`
counts the commits performed so far). -/
structure OrmState where
  databases : List DatabaseRow
  tables : List SqlaTableRow
  slices : List SliceRow
  dashboards : List DashboardRow
  nextId : Nat
  commitCtr : Nat
  commitOk : Nat → Bool

/-- `db.session.commit()`: succeeds or raises according to the oracle. -/
def commit (s : OrmState) : Except String Unit × OrmState :=
  if s.commitOk s.commitCtr then
    (.ok (), { s with commitCtr := s.commitCtr + 1 })
  else
    (.error "commit raised", { s with commitCtr := s.commitCtr + 1 })

/-- Sequencing of fallible ORM steps: a raised exception propagates
(until the top-level `try`/`except` of `__main__`). -/
def obind {α β : Type} (r : Except String α × OrmState)
    (f : α → OrmState → Except String β × OrmState) : Except String β × OrmState :=
  match r with
  | (.ok a, s) => f a s
  | (.error e, s) => (.error e, s)

/-- The dataset step of `create_manufacturing_dashboard` (lines 34-49), for one
view name: query `SqlaTable` filtered by `table_name` and `database_id`,
reuse the first hit, otherwise add and commit a new row. -/
def getOrCreateTable (view_name : String) (database_id : Nat) (s : OrmState) :
    Except String SqlaTableRow × OrmState :=
  match s.tables.find? (fun t => t.table_name == view_name && t.database_id == database_id) with
  | some t => (.ok t, s)
  | none =>
    let t : SqlaTableRow := ⟨s.nextId, view_name, database_id⟩
    let s := { s with tables := s.tables ++ [t], nextId := s.nextId + 1 }
    obind (commit s) fun _ s => (.ok t, s)

/-- `create_or_get_slice` (lines 226-245): query `Slice` filtered by
`slice_name` only; reuse the first hit, otherwise add and commit a new row. -/
def create_or_get_slice (name viz_type : String) (datasource_id : Nat) (params : JVal)
    (s : OrmState) : Except String SliceRow × OrmState :=
  match s.slices.find? (fun c => c.slice_name == name) with
  | some c => (.ok c, s)
  | none =>
    let c : SliceRow := ⟨s.nextId, name, viz_type, "table", datasource_id, params⟩
    let s := { s with slices := s.slices ++ [c], nextId := s.nextId + 1 }
    obind (commit s) fun _ s => (.ok c, s)

/-- `production_chart_params` (lines 55-78). -/
def production_chart_params (prod_table_id : Nat) : JVal :=
  .jobj [
    ("viz_type", .jstr "line"),
    ("datasource", .jstr (toString prod_table_id ++ "__table")),
    ("time_range", .jstr "Last 24 hours"),
    ("metrics", .jarr [.jobj [
      ("expressionType", .jstr "SIMPLE"),
      ("column", .jobj [("column_name", .jstr "total_parts"), ("type", .jstr "INT")]),
      ("aggregate", .jstr "SUM"),
      ("label", .jstr "Total Production")]]),
    ("groupby", .jarr [.jstr "plantCode"]),
    ("granularity_sqla", .jstr "hour"),
    ("timeseries_limit_metric", .jobj [
      ("expressionType", .jstr "SIMPLE"),
      ("column", .jobj [("column_name", .jstr "total_parts"), ("type", .jstr "INT")]),
      ("aggregate", .jstr "SUM")])]

/-- `oee_chart_params` (lines 89-103). -/
def oee_chart_params (kpi_table_id : Nat) : JVal :=
  .jobj [
    ("viz_type", .jstr "big_number_total"),
    ("datasource", .jstr (toString kpi_table_id ++ "__table")),
    ("time_range", .jstr "Last hour"),
    ("metric", .jobj [
      ("expressionType", .jstr "SIMPLE"),
      ("column", .jobj [("column_name", .jstr "current_oee"), ("type", .jstr "FLOAT")]),
      ("aggregate", .jstr "AVG"),
      ("label", .jstr "Current OEE %")]),
    ("subheader", .jstr "Overall Equipment Effectiveness")]

/-- `equipment_chart_params` (lines 114-135). -/
def equipment_chart_params (equip_table_id : Nat) : JVal :=
  .jobj [
    ("viz_type", .jstr "table"),
    ("datasource", .jstr (toString equip_table_id ++ "__table")),
    ("time_range", .jstr "Last hour"),
    ("groupby", .jarr [.jstr "equipmentId", .jstr "plantCode"]),
    ("metrics", .jarr [
      .jobj [
        ("expressionType", .jstr "SIMPLE"),
        ("column", .jobj [("column_name", .jstr "avg_oee"), ("type", .jstr "FLOAT")]),
        ("aggregate", .jstr "AVG"),
        ("label", .jstr "OEE %")],
      .jobj [
        ("expressionType", .jstr "SIMPLE"),
        ("column", .jobj [("column_name", .jstr "total_production"), ("type", .jstr "INT")]),
        ("aggregate", .jstr "SUM"),
        ("label", .jstr "Production")]]),
    ("table_timestamp_format", .jstr "%Y-%m-%d %H:%M"),
    ("page_length", .jnum 10)]

/-- The fixed dashboard layout dict `position` (lines 156-207), parameterised by
the three chart ids that the script wired into the `meta.chartId` fields. -/
def ormPosition (prodId oeeId equipId : Nat) : JVal :=
  .jobj [
    ("ROOT_ID", .jobj [("type", .jstr "ROOT"), ("id", .jstr "ROOT_ID"),
      ("children", .jarr [.jstr "GRID_ID"])]),
    ("GRID_ID", .jobj [("type", .jstr "GRID"), ("id", .jstr "GRID_ID"),
      ("children", .jarr [.jstr "ROW-1", .jstr "ROW-2"])]),
    ("ROW-1", .jobj [("type", .jstr "ROW"), ("id", .jstr "ROW-1"),
      ("children", .jarr [.jstr "CHART-prod", .jstr "CHART-oee"])]),
    ("ROW-2", .jobj [("type", .jstr "ROW"), ("id", .jstr "ROW-2"),
      ("children", .jarr [.jstr "CHART-equipment"])]),
    ("CHART-prod", .jobj [("type", .jstr "CHART"), ("id", .jstr "CHART-prod"),
      ("children", .jarr []),
      ("meta", .jobj [("width", .jnum 8), ("height", .jnum 50), ("chartId", .jnum prodId)])]),
    ("CHART-oee", .jobj [("type", .jstr "CHART"), ("id", .jstr "CHART-oee"),
      ("children", .jarr []),
      ("meta", .jobj [("width", .jnum 4), ("height", .jnum 50), ("chartId", .jnum oeeId)])]),
    ("CHART-equipment", .jobj [("type", .jstr "CHART"), ("id", .jstr "CHART-equipment"),
      ("children", .jarr []),
      ("meta", .jobj [("width", .jnum 12), ("height", .jnum 50), ("chartId", .jnum equipId)])])]

/-- `create_manufacturing_dashboard` (lines 17-224).  The source's `for`-loop
over the three-element `views` list is unrolled into the three
`getOrCreateTable` calls, in loop order; the `tables` dict accesses become the
bound results `t1`, `t2`, `t3`. -/
def create_manufacturing_dashboard (s : OrmState) : Except String (Option Nat) × OrmState :=
  match s.databases.find? (fun d => d.database_name == "Manufacturing TimescaleDB") with
  | none => (.ok none, s)
  | some mdb =>
    obind (getOrCreateTable "dashboard_production_overview" mdb.id s) fun t1 s =>
    obind (getOrCreateTable "dashboard_equipment_performance" mdb.id s) fun t2 s =>
    obind (getOrCreateTable "dashboard_realtime_kpis" mdb.id s) fun t3 s =>
    obind (create_or_get_slice "Production Trend - 24 Hours" "line" t1.id
        (production_chart_params t1.id) s) fun c1 s =>
    obind (create_or_get_slice "Current OEE" "big_number_total" t3.id
        (oee_chart_params t3.id) s) fun c2 s =>
    obind (create_or_get_slice "Equipment Performance" "table" t2.id
        (equipment_chart_params t2.id) s) fun c3 s =>
    match s.dashboards.find? (fun d => d.dashboard_title == "Manufacturing Overview") with
    | some d => (.ok (some d.id), s)
    | none =>
      let d : DashboardRow :=
        ⟨s.nextId, "Manufacturing Overview", "manufacturing-overview",
          [c1.id, c2.id, c3.id], ormPosition c1.id c2.id c3.id, true⟩
      let s := { s with dashboards := s.dashboards ++ [d], nextId := s.nextId + 1 }
      obind (commit s) fun _ s => (.ok (some d.id), s)

/-- Observable outcome of the script's `__main__` block. -/
structure MainResult where
  dashboardId : Option Nat
  printedError : Bool
  printedTrace : Bool
  rollbacks : Nat
deriving DecidableEq

/-- The `__main__` block (lines 247-256): run the creator under `try`; on an
exception print the error, print the traceback and roll the session back
exactly once.  Either way the function returns (the process exits normally). -/
def ormMain (s : OrmState) : MainResult × OrmState :=
  match create_manufacturing_dashboard s with
  | (.ok id?, s) => (⟨id?, false, false, 0⟩, s)
  | (.error _, s) => (⟨none, true, true, 1⟩, s)

/-! ## The configuration module (`superset/superset_config.py`) -/

/-- The state the startup hook touches: the `Database` table, the id counter
(the platform's auto-increment key), and the logger's output. -/
structure ConfigState where
  databases : List DatabaseRow
  nextId : Nat
  infoLog : List String
  errorLog : List String

/-- `os.environ.get(key, default)` over an environment `env`. -/
def envGet (env : String → Option String) (key dflt : String) : String :=
  (env key).getD dflt

/-- The SQLAlchemy URI assembled in `init_manufacturing_database` (line 148). -/
def manufacturingUri (env : String → Option String) : String :=
  "postgresql://" ++ envGet env "MANUFACTURING_DB_USER" "postgres" ++ ":" ++
    envGet env "MANUFACTURING_DB_PASSWORD" "postgres" ++ "@" ++
    envGet env "MANUFACTURING_DB_HOST" "timescaledb" ++ ":5432/" ++
    envGet env "MANUFACTURING_DB_NAME" "manufacturing"

/-- `init_manufacturing_database` (lines 134-159): inside `try`, query for a
`Database` named 'Manufacturing TimescaleDB'; if absent, add one and commit,
then log success.  `commitOk` tells whether the commit raises; a raised
exception is caught by the `except` clause, which logs the error — the
uncommitted row is not persisted and nothing propagates to the caller. -/
def init_manufacturing_database (env : String → Option String) (commitOk : Bool)
    (s : ConfigState) : ConfigState :=
  match s.databases.find? (fun d => d.database_name == "Manufacturing TimescaleDB") with
  | some _ => s
  | none =>
    if commitOk then
      { s with
        databases := s.databases ++
          [⟨s.nextId, "Manufacturing TimescaleDB", manufacturingUri env,
            true, true, true, true, true⟩],
        nextId := s.nextId + 1,
        infoLog := s.infoLog ++ ["Manufacturing database connection created successfully"] }
    else
      { s with errorLog := s.errorLog ++ ["Failed to create manufacturing database connection"] }

/-- `CustomSupersetAppInitializer.init_app` (lines 164-171): run the platform's
own `super().init_app()` (an opaque step `superInit`), then the provisioning
hook inside the app context. -/
def customInitApp (superInit : ConfigState → ConfigState) (env : String → Option String)
    (commitOk : Bool) (s : ConfigState) : ConfigState :=
  init_manufacturing_database env commitOk (superInit s)

/-! ## The REST-path creator (`scripts/superset/automated-dashboard-creator.py`) -/

/-- Python truthiness of an optional integer (`if dataset_id:` etc.):
`None` and `0` are falsy. -/
def truthy : Option Nat → Bool
  | none => false
  | some n => n != 0

/-- A creation request issued to the platform's REST API (the log records
only entity-creating POSTs, not health checks or authentication). -/
inductive Req where
  | dsReq : String → Req
  | chartReq : String → Req
  | dashReq : String → Req
deriving DecidableEq

/-- A dataset row created through `POST /api/v1/dataset/`. -/
structure DatasetRow where
  id : Nat
  table_name : String
  schema : String
  database_id : Nat
deriving DecidableEq

/-- The payload of `POST /api/v1/chart/` as the script assembles it. -/
structure ChartConfig where
  slice_name : String
  viz_type : String
  datasource_id : Nat
  datasource_type : String
  params : JVal

/-- A chart row created through the REST API. -/
structure ChartRow where
  id : Nat
  config : ChartConfig

/-- The payload of `POST /api/v1/dashboard/` as the script assembles it
(`css` and `json_metadata` are only set by the overview dashboard). -/
structure DashConfig where
  dashboard_title : String
  slug : String
  position_json : JVal
  css : Option String
  json_metadata : Option JVal

/-- A dashboard row created through the REST API. -/
structure DashRow where
  id : Nat
  config : DashConfig

/-- The external platform as the REST script observes it: entity tables, the
auto-increment id counter, and the trace of creation requests issued so far. -/
structure Server where
  databases : List DatabaseRow
  datasets : List DatasetRow
  charts : List ChartRow
  dashboards : List DashRow
  nextId : Nat
  log : List Req

/-- Per-request behaviour of the environment: `health i` is the status of the
i-th health poll (`none` models a raised exception, swallowed by the bare
`except`), `authOk` whether login succeeds, `listOk` whether the database
list GET succeeds, and the three creation oracles whether the corresponding
POST returns the 201 status (a non-201 answer and a raised exception take
the same `return None` branch in the source, so both are `false`). -/
structure Oracle where
  health : Nat → Option Nat
  authOk : Bool
  listOk : Bool
  datasetOk : String → Bool
  chartOk : String → Bool
  dashOk : String → Bool

/-- `wait_for_superset` loop body (lines 59-74), as fuel recursion: `fuel` is
the number of attempts left, `i` the index of the current attempt. -/
def waitGo (health : Nat → Option Nat) : Nat → Nat → Bool
  | 0, _ => false
  | fuel + 1, i =>
    if health i = some 200 then true else waitGo health fuel (i + 1)

/-- `wait_for_superset(max_retries)` : poll `/health` up to `max_retries`
times, returning `True` on the first 200 answer and `False` otherwise. -/
def wait_for_superset (health : Nat → Option Nat) (max_retries : Nat) : Bool :=
  waitGo health max_retries 0

/-- The default `max_retries` of `wait_for_superset`. -/
def wait_for_superset_default_retries : Nat := 30

/-- Number of polls `wait_for_superset` actually performs (instrumentation of
the same loop; the source sleeps 10 seconds after each unsuccessful poll). -/
def waitPolls (health : Nat → Option Nat) : Nat → Nat → Nat
  | 0, _ => 0
  | fuel + 1, i =>
    if health i = some 200 then 1 else waitPolls health fuel (i + 1) + 1

/-- `get_database_id` (lines 76-88): list the databases and return the id of
the first one whose `database_name` matches; `None` when absent or when the
GET fails (the `except` branch). -/
def get_database_id (o : Oracle) (srv : Server) (database_name : String) : Option Nat :=
  if o.listOk then
    (srv.databases.find? (fun d => d.database_name == database_name)).map (fun d => d.id)
  else none

/-- `create_dataset` (lines 90-114): POST the payload; on 201 the server
stores a new row (with a fresh id) and the id is returned, otherwise `None`
is returned and nothing is stored.  The request itself is always issued. -/
def create_dataset (o : Oracle) (table_name : String) (database_id : Nat)
    (srv : Server) : Option Nat × Server :=
  let srv := { srv with log := srv.log ++ [Req.dsReq table_name] }
  if o.datasetOk table_name then
    (some srv.nextId,
     { srv with datasets := srv.datasets ++ [⟨srv.nextId, table_name, "public", database_id⟩],
                nextId := srv.nextId + 1 })
  else (none, srv)

/-- `create_chart` (lines 116-134). -/
def create_chart (o : Oracle) (cfg : ChartConfig) (srv : Server) : Option Nat × Server :=
  let srv := { srv with log := srv.log ++ [Req.chartReq cfg.slice_name] }
  if o.chartOk cfg.slice_name then
    (some srv.nextId,
     { srv with charts := srv.charts ++ [⟨srv.nextId, cfg⟩], nextId := srv.nextId + 1 })
  else (none, srv)

/-- `create_dashboard` (lines 136-154). -/
def create_dashboard (o : Oracle) (cfg : DashConfig) (srv : Server) : Option Nat × Server :=
  let srv := { srv with log := srv.log ++ [Req.dashReq cfg.dashboard_title] }
  if o.dashOk cfg.dashboard_title then
    (some srv.nextId,
     { srv with dashboards := srv.dashboards ++ [⟨srv.nextId, cfg⟩], nextId := srv.nextId + 1 })
  else (none, srv)

/-- The `for view in dataset_views:` loop shared by all four dashboard
builders: create each dataset in order and record `datasets[view] = id`
for the truthy ids. -/
def createDatasetsLoop (o : Oracle) (database_id : Nat) :
    List String → Server → List (String × Nat) × Server
  | [], srv => ([], srv)
  | v :: rest, srv =>
    let (r, srv) := create_dataset o v database_id srv
    let (ds, srv) := createDatasetsLoop o database_id rest srv
    match r with
    | some i => if i != 0 then ((v, i) :: ds, srv) else (ds, srv)
    | none => (ds, srv)

/-- An entry of the builders' `charts` lists: the collected chart id plus the
width/height recorded for the layout. -/
structure ChartPos where
  id : Nat
  width : Nat
  height : Nat
deriving DecidableEq

/-- The guarded chart step shared by all four dashboard builders
(`if view in datasets: chart_id = create_chart(cfg); if chart_id: charts.append(...)`). -/
def addChartStep (o : Oracle) (datasets : List (String × Nat)) (view : String)
    (mk : Nat → ChartConfig) (width height : Nat) (acc : List ChartPos) (srv : Server) :
    List ChartPos × Server :=
  match datasets.lookup view with
  | none => (acc, srv)
  | some dsid =>
    let (r, srv) := create_chart o (mk dsid) srv
    match r with
    | some cid => if cid != 0 then (acc ++ [⟨cid, width, height⟩], srv) else (acc, srv)
    | none => (acc, srv)

/-- One entry of the `position_json` dict comprehension shared by the four
builders: `"CHART-<id>": {id, type, children, meta{chartId, width, height}}`. -/
def chartPosEntry (c : ChartPos) : String × JVal :=
  ("CHART-" ++ toString c.id,
   .jobj [
     ("id", .jstr ("CHART-" ++ toString c.id)),
     ("type", .jstr "CHART"),
     ("children", .jarr []),
     ("meta", .jobj [
       ("chartId", .jnum c.id),
       ("width", .jnum c.width),
       ("height", .jnum c.height)])])

/-- The final `if charts:` step shared by the four builders: build the
dashboard config over the collected chart entries and POST it; with no
charts the builder returns `None` without issuing a request. -/
def dashboardStep (o : Oracle) (title slug : String) (css : Option String)
    (json_metadata : Option JVal) (charts : List ChartPos) (srv : Server) :
    Option Nat × Server :=
  match charts with
  | [] => (none, srv)
  | _ =>
    create_dashboard o
      { dashboard_title := title, slug := slug,
        position_json := .jobj (charts.map chartPosEntry),
        css := css, json_metadata := json_metadata } srv

/-- The `dataset_views` of `create_manufacturing_overview_dashboard` (161-168). -/
def overviewViews : List String :=
  ["v_realtime_production", "v_equipment_status", "v_oee_hourly_trend",
   "v_quality_metrics", "v_kpi_summary", "v_downtime_analysis"]

/-- `oee_chart` config of the overview dashboard (lines 184-196). -/
def overviewOeeChart (dsid : Nat) : ChartConfig :=
  ⟨"Current OEE", "gauge_chart", dsid, "table",
    .jobj [("metric", .jstr "oee"), ("groupby", .jarr []), ("min_val", .jnum 0),
           ("max_val", .jnum 100), ("value_color", .jstr "green")]⟩

/-- `production_chart` config of the overview dashboard (lines 207-218). -/
def overviewProductionChart (dsid : Nat) : ChartConfig :=
  ⟨"Production Trend", "line", dsid, "table",
    .jobj [("metrics", .jarr [.jstr "production_count"]),
           ("groupby", .jarr [.jstr "timestamp"]),
           ("granularity_sqla", .jstr "timestamp"),
           ("time_range", .jstr "Last 24 hours")]⟩

/-- `equipment_chart` config of the overview dashboard (lines 229-239). -/
def overviewEquipmentChart (dsid : Nat) : ChartConfig :=
  ⟨"Equipment Status", "table", dsid, "table",
    .jobj [("metrics", .jarr []),
           ("groupby", .jarr [.jstr "equipment_name", .jstr "status",
                              .jstr "availability", .jstr "last_maintenance"]),
           ("row_limit", .jnum 10)]⟩

/-- `quality_chart` config of the overview dashboard (lines 250-259). -/
def overviewQualityChart (dsid : Nat) : ChartConfig :=
  ⟨"Quality Metrics", "big_number_total", dsid, "table",
    .jobj [("metric", .jstr "first_pass_yield"), ("granularity_sqla", .jstr "timestamp")]⟩

/-- `json_metadata` of the overview dashboard (lines 286-290). -/
def overviewJsonMetadata : JVal :=
  .jobj [("refresh_frequency", .jnum 30),
         ("timed_refresh_immune_slices", .jarr []),
         ("default_filters", .jobj [])]

/-- `create_manufacturing_overview_dashboard` (lines 156-295). -/
def create_manufacturing_overview_dashboard (o : Oracle) (database_id : Nat)
    (srv : Server) : Option Nat × Server :=
  let (datasets, srv) := createDatasetsLoop o database_id overviewViews srv
  match datasets with
  | [] => (none, srv)
  | _ =>
    let (charts, srv) := addChartStep o datasets "v_kpi_summary" overviewOeeChart 4 4 [] srv
    let (charts, srv) :=
      addChartStep o datasets "v_realtime_production" overviewProductionChart 8 4 charts srv
    let (charts, srv) :=
      addChartStep o datasets "v_equipment_status" overviewEquipmentChart 6 5 charts srv
    let (charts, srv) :=
      addChartStep o datasets "v_quality_metrics" overviewQualityChart 6 3 charts srv
    dashboardStep o "Manufacturing Overview" "manufacturing-overview"
      (some "") (some overviewJsonMetadata) charts srv

/-- `volume_chart` config of the production dashboard (lines 313-323). -/
def productionVolumeChart (dsid : Nat) : ChartConfig :=
  ⟨"Production Volume", "area", dsid, "table",
    .jobj [("metrics", .jarr [.jstr "production_count", .jstr "target_count"]),
           ("groupby", .jarr [.jstr "timestamp"]),
           ("granularity_sqla", .jstr "timestamp")]⟩

/-- `shift_chart` config of the production dashboard (lines 330-339). -/
def productionShiftChart (dsid : Nat) : ChartConfig :=
  ⟨"Shift Performance", "bar", dsid, "table",
    .jobj [("metrics", .jarr [.jstr "shift_oee"]),
           ("groupby", .jarr [.jstr "shift_name"])]⟩

/-- `create_production_dashboard` (lines 297-365). -/
def create_production_dashboard (o : Oracle) (database_id : Nat) (srv : Server) :
    Option Nat × Server :=
  let (datasets, srv) := createDatasetsLoop o database_id
    ["v_realtime_production", "v_shift_performance"] srv
  let (charts, srv) :=
    addChartStep o datasets "v_realtime_production" productionVolumeChart 12 6 [] srv
  let (charts, srv) :=
    addChartStep o datasets "v_shift_performance" productionShiftChart 6 4 charts srv
  dashboardStep o "Production Metrics" "production-metrics" none none charts srv

/-- `quality_chart` config of the quality dashboard (lines 383-393). -/
def qualityTrendChart (dsid : Nat) : ChartConfig :=
  ⟨"Quality Trend", "line", dsid, "table",
    .jobj [("metrics", .jarr [.jstr "first_pass_yield", .jstr "defect_rate"]),
           ("groupby", .jarr [.jstr "timestamp"]),
           ("granularity_sqla", .jstr "timestamp")]⟩

/-- `scrap_chart` config of the quality dashboard (lines 400-409). -/
def qualityScrapChart (dsid : Nat) : ChartConfig :=
  ⟨"Scrap by Reason", "pie", dsid, "table",
    .jobj [("metrics", .jarr [.jstr "scrap_cost"]),
           ("groupby", .jarr [.jstr "scrap_reason"])]⟩

/-- `create_quality_dashboard` (lines 367-435). -/
def create_quality_dashboard (o : Oracle) (database_id : Nat) (srv : Server) :
    Option Nat × Server :=
  let (datasets, srv) := createDatasetsLoop o database_id
    ["v_quality_metrics", "v_scrap_analysis"] srv
  let (charts, srv) :=
    addChartStep o datasets "v_quality_metrics" qualityTrendChart 8 5 [] srv
  let (charts, srv) :=
    addChartStep o datasets "v_scrap_analysis" qualityScrapChart 4 5 charts srv
  dashboardStep o "Quality Analytics" "quality-analytics" none none charts srv

/-- `oee_chart` config of the equipment dashboard (lines 453-463). -/
def equipmentOeeChart (dsid : Nat) : ChartConfig :=
  ⟨"OEE by Equipment", "heatmap", dsid, "table",
    .jobj [("metrics", .jarr [.jstr "oee_score"]),
           ("groupby", .jarr [.jstr "equipment_name"]),
           ("columns", .jarr [.jstr "hour_of_day"])]⟩

/-- `downtime_chart` config of the equipment dashboard (lines 470-479). -/
def equipmentDowntimeChart (dsid : Nat) : ChartConfig :=
  ⟨"Downtime by Reason", "bar", dsid, "table",
    .jobj [("metrics", .jarr [.jstr "total_downtime_hours"]),
           ("groupby", .jarr [.jstr "downtime_reason"])]⟩

/-- `create_equipment_dashboard` (lines 437-505). -/
def create_equipment_dashboard (o : Oracle) (database_id : Nat) (srv : Server) :
    Option Nat × Server :=
  let (datasets, srv) := createDatasetsLoop o database_id
    ["v_equipment_status", "v_downtime_analysis", "v_oee_hourly_trend"] srv
  let (charts, srv) :=
    addChartStep o datasets "v_oee_hourly_trend" equipmentOeeChart 8 6 [] srv
  let (charts, srv) :=
    addChartStep o datasets "v_downtime_analysis" equipmentDowntimeChart 4 6 charts srv
  dashboardStep o "Equipment Performance" "equipment-performance" none none charts srv

/-- `create_all_dashboards` (lines 507-562): wait for the service, log in,
resolve the database id (`if not database_id:` is a truthiness test), then
build the four dashboards in sequence and return the summary dict
(modelled as an association list in insertion order; the early-exit paths
return the empty dict). -/
def create_all_dashboards (o : Oracle) (srv : Server) :
    List (String × Option Nat) × Server :=
  if !(wait_for_superset o.health wait_for_superset_default_retries) then ([], srv)
  else if !o.authOk then ([], srv)
  else
    let dbid? := get_database_id o srv "Manufacturing TimescaleDB"
    if !(truthy dbid?) then ([], srv)
    else
      let dbid := dbid?.getD 0
      let (r1, srv) := create_manufacturing_overview_dashboard o dbid srv
      let (r2, srv) := create_production_dashboard o dbid srv
      let (r3, srv) := create_quality_dashboard o dbid srv
      let (r4, srv) := create_equipment_dashboard o dbid srv
      ([("overview", r1), ("production", r2), ("quality", r3), ("equipment", r4)], srv)

/-! ## Helper lemmas -/

theorem ite_pair_snd {α β : Type} {c : Prop} [Decidable c] {a₁ a₂ : α} {x : β} :
    (if c then (a₁, x) else (a₂, x)).2 = x := by
  split <;> rfl

theorem create_dataset_ok {o : Oracle} {t : String} {dbid : Nat} {srv : Server}
    (hc : o.datasetOk t = true) :
    create_dataset o t dbid srv =
      (some srv.nextId,
       { srv with datasets := srv.datasets ++ [⟨srv.nextId, t, "public", dbid⟩],
                  nextId := srv.nextId + 1,
                  log := srv.log ++ [Req.dsReq t] }) := by
  unfold create_dataset
  simp [hc]

theorem create_dataset_fail {o : Oracle} {t : String} {dbid : Nat} {srv : Server}
    (hc : o.datasetOk t = false) :
    create_dataset o t dbid srv = (none, { srv with log := srv.log ++ [Req.dsReq t] }) := by
  unfold create_dataset
  simp [hc]

theorem create_chart_ok {o : Oracle} {cfg : ChartConfig} {srv : Server}
    (hc : o.chartOk cfg.slice_name = true) :
    create_chart o cfg srv =
      (some srv.nextId,
       { srv with charts := srv.charts ++ [⟨srv.nextId, cfg⟩],
                  nextId := srv.nextId + 1,
                  log := srv.log ++ [Req.chartReq cfg.slice_name] }) := by
  unfold create_chart
  simp [hc]

theorem create_chart_fail {o : Oracle} {cfg : ChartConfig} {srv : Server}
    (hc : o.chartOk cfg.slice_name = false) :
    create_chart o cfg srv = (none, { srv with log := srv.log ++ [Req.chartReq cfg.slice_name] }) := by
  unfold create_chart
  simp [hc]

theorem create_dashboard_ok {o : Oracle} {cfg : DashConfig} {srv : Server}
    (hc : o.dashOk cfg.dashboard_title = true) :
    create_dashboard o cfg srv =
      (some srv.nextId,
       { srv with dashboards := srv.dashboards ++ [⟨srv.nextId, cfg⟩],
                  nextId := srv.nextId + 1,
                  log := srv.log ++ [Req.dashReq cfg.dashboard_title] }) := by
  unfold create_dashboard
  simp [hc]

theorem create_dashboard_fail {o : Oracle} {cfg : DashConfig} {srv : Server}
    (hc : o.dashOk cfg.dashboard_title = false) :
    create_dashboard o cfg srv =
      (none, { srv with log := srv.log ++ [Req.dashReq cfg.dashboard_title] }) := by
  unfold create_dashboard
  simp [hc]

/-- Frame and effect of one guarded chart step of the REST builders. -/
theorem addChartStep_spec (o : Oracle) (datasets : List (String × Nat)) (view : String)
    (mk : Nat → ChartConfig) (width height : Nat) (acc : List ChartPos) (srv : Server)
    (hpos : 1 ≤ srv.nextId) :
    ∃ nr le,
      (addChartStep o datasets view mk width height acc srv).2.datasets = srv.datasets ∧
      (addChartStep o datasets view mk width height acc srv).2.dashboards = srv.dashboards ∧
      (addChartStep o datasets view mk width height acc srv).2.databases = srv.databases ∧
      srv.nextId ≤ (addChartStep o datasets view mk width height acc srv).2.nextId ∧
      (addChartStep o datasets view mk width height acc srv).2.charts = srv.charts ++ nr ∧
      (addChartStep o datasets view mk width height acc srv).1 =
        acc ++ nr.map (fun c => ⟨c.id, width, height⟩) ∧
      (∀ c ∈ nr, srv.nextId ≤ c.id ∧
        c.id < (addChartStep o datasets view mk width height acc srv).2.nextId) ∧
      (nr = [] ∨ ∃ x, nr = [x]) ∧
      (addChartStep o datasets view mk width height acc srv).2.log = srv.log ++ le ∧
      (∀ e ∈ le, ∃ nm, e = Req.chartReq nm) := by
  unfold addChartStep
  cases hl : datasets.lookup view with
  | none => exact ⟨[], [], by simp⟩
  | some dsid =>
    dsimp only
    by_cases hc : o.chartOk (mk dsid).slice_name
    · rw [create_chart_ok hc]
      have hne : (srv.nextId != 0) = true := by
        simp only [bne_iff_ne, ne_eq]
        omega
      refine ⟨[⟨srv.nextId, mk dsid⟩], [Req.chartReq (mk dsid).slice_name], ?_⟩
      simp [hne]
    · rw [create_chart_fail (by simpa using hc)]
      exact ⟨[], [Req.chartReq (mk dsid).slice_name], by simp⟩

/-- Frame of the dataset loop of the REST builders. -/
theorem createDatasetsLoop_spec (o : Oracle) (dbid : Nat) :
    ∀ (views : List String) (srv : Server),
      ∃ le,
        (createDatasetsLoop o dbid views srv).2.charts = srv.charts ∧
        (createDatasetsLoop o dbid views srv).2.dashboards = srv.dashboards ∧
        (createDatasetsLoop o dbid views srv).2.databases = srv.databases ∧
        srv.nextId ≤ (createDatasetsLoop o dbid views srv).2.nextId ∧
        (∃ l, (createDatasetsLoop o dbid views srv).2.datasets = srv.datasets ++ l) ∧
        (createDatasetsLoop o dbid views srv).2.log = srv.log ++ le ∧
        (∀ e ∈ le, ∃ nm, e = Req.dsReq nm) := by
  intro views
  induction views with
  | nil =>
    intro srv
    exact ⟨[], by simp [createDatasetsLoop]⟩
  | cons v rest ih =>
    intro srv
    by_cases hc : o.datasetOk v
    · simp only [createDatasetsLoop]
      rw [create_dataset_ok hc]
      obtain ⟨le₁, hch, hdb, hdbs, hni, ⟨l₁, hds⟩, hlog, hkind⟩ :=
        ih { srv with datasets := srv.datasets ++ [⟨srv.nextId, v, "public", dbid⟩],
                      nextId := srv.nextId + 1,
                      log := srv.log ++ [Req.dsReq v] }
      rcases hres : createDatasetsLoop o dbid rest
        { srv with datasets := srv.datasets ++ [⟨srv.nextId, v, "public", dbid⟩],
                   nextId := srv.nextId + 1,
                   log := srv.log ++ [Req.dsReq v] } with ⟨ds₁, srv₂⟩
      rw [hres] at hch hdb hdbs hni hds hlog
      dsimp only at hch hdb hdbs hni hds hlog ⊢
      refine ⟨Req.dsReq v :: le₁, ?_⟩
      simp only [ite_pair_snd]
      refine ⟨hch, hdb, hdbs, by omega,
        ⟨⟨srv.nextId, v, "public", dbid⟩ :: l₁, by simp [hds]⟩,
        by simp [hlog], ?_⟩
      intro e he
      rcases List.mem_cons.mp he with he | he
      · exact ⟨v, he⟩
      · exact hkind e he
    · simp only [createDatasetsLoop]
      rw [create_dataset_fail (by simpa using hc)]
      obtain ⟨le₁, hch, hdb, hdbs, hni, ⟨l₁, hds⟩, hlog, hkind⟩ :=
        ih { srv with log := srv.log ++ [Req.dsReq v] }
      rcases hres : createDatasetsLoop o dbid rest
        { srv with log := srv.log ++ [Req.dsReq v] } with ⟨ds₁, srv₂⟩
      rw [hres] at hch hdb hdbs hni hds hlog
      dsimp only at hch hdb hdbs hni hds hlog ⊢
      refine ⟨Req.dsReq v :: le₁, hch, hdb, hdbs, hni, ⟨l₁, hds⟩, by simp [hlog], ?_⟩
      intro e he
      rcases List.mem_cons.mp he with he | he
      · exact ⟨v, he⟩
      · exact hkind e he

theorem dashboardStep_nil (o : Oracle) (title slug : String) (css : Option String)
    (jm : Option JVal) (srv : Server) :
    dashboardStep o title slug css jm [] srv = (none, srv) := rfl

theorem dashboardStep_ok {o : Oracle} {title slug : String} {css : Option String}
    {jm : Option JVal} {charts : List ChartPos} {srv : Server}
    (hne : charts ≠ []) (hc : o.dashOk title = true) :
    dashboardStep o title slug css jm charts srv =
      (some srv.nextId,
       { srv with
         dashboards := srv.dashboards ++
           [⟨srv.nextId, ⟨title, slug, .jobj (charts.map chartPosEntry), css, jm⟩⟩],
         nextId := srv.nextId + 1,
         log := srv.log ++ [Req.dashReq title] }) := by
  unfold dashboardStep
  cases charts with
  | nil => exact absurd rfl hne
  | cons c cs => exact create_dashboard_ok hc

theorem dashboardStep_fail {o : Oracle} {title slug : String} {css : Option String}
    {jm : Option JVal} {charts : List ChartPos} {srv : Server}
    (hne : charts ≠ []) (hc : o.dashOk title = false) :
    dashboardStep o title slug css jm charts srv =
      (none, { srv with log := srv.log ++ [Req.dashReq title] }) := by
  unfold dashboardStep
  cases charts with
  | nil => exact absurd rfl hne
  | cons c cs => exact create_dashboard_fail hc

/-- Maintaining the chart-id invariant across one guarded chart step. -/
theorem accInv_step (acc : List ChartPos) {nr : List ChartRow} (w hgt : Nat) {n m : Nat}
    (hnod : (acc.map (fun c => c.id)).Nodup)
    (hbound : ∀ c ∈ acc, c.id < n)
    (hnr : ∀ c ∈ nr, n ≤ c.id ∧ c.id < m)
    (hshape : nr = [] ∨ ∃ x, nr = [x])
    (hle : n ≤ m) :
    ((acc ++ nr.map (fun c => (⟨c.id, w, hgt⟩ : ChartPos))).map (fun c => c.id)).Nodup ∧
    (∀ c ∈ acc ++ nr.map (fun c => (⟨c.id, w, hgt⟩ : ChartPos)), c.id < m) := by
  constructor
  · rw [List.map_append]
    refine hnod.append ?_ ?_
    · rcases hshape with rfl | ⟨x, rfl⟩ <;> simp
    · simp only [List.map_map]
      intro a ha hb
      simp only [List.mem_map] at ha hb
      obtain ⟨c, hcm, rfl⟩ := ha
      obtain ⟨c', hcm', hca⟩ := hb
      have h₁ := hbound c hcm
      have h₂ := (hnr c' hcm').1
      have h₃ : c'.id = c.id := hca
      omega
  · intro c hc
    rcases List.mem_append.mp hc with hcl | hcr
    · exact lt_of_lt_of_le (hbound c hcl) hle
    · simp only [List.mem_map] at hcr
      obtain ⟨c', hc', rfl⟩ := hcr
      exact (hnr c' hc').2

/-- The dataset loop with an all-failing oracle: nothing is stored, every
request is still issued, and the empty dict is returned. -/
theorem createDatasetsLoop_all_fail (o : Oracle) (dbid : Nat) :
    ∀ (views : List String) (srv : Server), (∀ v ∈ views, o.datasetOk v = false) →
      createDatasetsLoop o dbid views srv =
        ([], { srv with log := srv.log ++ views.map Req.dsReq }) := by
  intro views
  induction views with
  | nil => intro srv _; simp [createDatasetsLoop]
  | cons v rest ih =>
    intro srv h
    have hv : o.datasetOk v = false := h v (by simp)
    have hrest : ∀ w ∈ rest, o.datasetOk w = false := fun w hw => h w (by simp [hw])
    simp only [createDatasetsLoop]
    rw [create_dataset_fail hv]
    simp only [ih _ hrest]
    simp

theorem find?_append_some {α : Type} {l₁ : List α} (l₂ : List α) {p : α → Bool} {x : α}
    (h : l₁.find? p = some x) : (l₁ ++ l₂).find? p = some x := by
  rw [List.find?_append, h]; rfl

theorem find?_append_none {α : Type} {l₁ : List α} (l₂ : List α) {p : α → Bool}
    (h : l₁.find? p = none) : (l₁ ++ l₂).find? p = l₂.find? p := by
  rw [List.find?_append, h]; rfl

/-- What a successful dataset step guarantees: only the `tables` list may have
grown, and a row for the requested view/database pair is now findable. -/
theorem getOrCreateTable_spec {v : String} {i : Nat} {s : OrmState} {t : SqlaTableRow}
    {s' : OrmState} (h : getOrCreateTable v i s = (.ok t, s')) :
    s'.databases = s.databases ∧ s'.slices = s.slices ∧ s'.dashboards = s.dashboards ∧
    s'.commitOk = s.commitOk ∧
    (∃ l, s'.tables = s.tables ++ l) ∧
    s'.tables.find? (fun x => x.table_name == v && x.database_id == i) = some t := by
  unfold getOrCreateTable at h
  cases hf : s.tables.find? (fun x => x.table_name == v && x.database_id == i) with
  | some t0 =>
    rw [hf] at h
    simp only [Prod.mk.injEq, Except.ok.injEq] at h
    obtain ⟨ht, hs⟩ := h
    subst ht; subst hs
    exact ⟨rfl, rfl, rfl, rfl, ⟨[], by simp⟩, hf⟩
  | none =>
    rw [hf] at h
    unfold obind commit at h
    by_cases hc : s.commitOk s.commitCtr
    · simp only [hc, if_true] at h
      simp only [Prod.mk.injEq, Except.ok.injEq] at h
      obtain ⟨ht, hs⟩ := h
      subst ht; subst hs
      refine ⟨rfl, rfl, rfl, rfl, ⟨[⟨s.nextId, v, i⟩], rfl⟩, ?_⟩
      rw [find?_append_none _ hf]
      simp [List.find?]
    · simp only [hc, if_false] at h
      simp at h

/-- What a successful chart step guarantees: only the `slices` list may have
grown, and a slice with the requested name is now findable. -/
theorem create_or_get_slice_spec {name viz_type : String} {dsid : Nat} {params : JVal}
    {s : OrmState} {c : SliceRow} {s' : OrmState}
    (h : create_or_get_slice name viz_type dsid params s = (.ok c, s')) :
    s'.databases = s.databases ∧ s'.tables = s.tables ∧ s'.dashboards = s.dashboards ∧
    s'.commitOk = s.commitOk ∧
    (∃ l, s'.slices = s.slices ++ l) ∧
    s'.slices.find? (fun x => x.slice_name == name) = some c := by
  unfold create_or_get_slice at h
  cases hf : s.slices.find? (fun x => x.slice_name == name) with
  | some c0 =>
    rw [hf] at h
    simp only [Prod.mk.injEq, Except.ok.injEq] at h
    obtain ⟨hcq, hs⟩ := h
    subst hcq; subst hs
    exact ⟨rfl, rfl, rfl, rfl, ⟨[], by simp⟩, hf⟩
  | none =>
    rw [hf] at h
    unfold obind commit at h
    by_cases hc : s.commitOk s.commitCtr
    · simp only [hc, if_true] at h
      simp only [Prod.mk.injEq, Except.ok.injEq] at h
      obtain ⟨hcq, hs⟩ := h
      subst hcq; subst hs
      refine ⟨rfl, rfl, rfl, rfl, ⟨[⟨s.nextId, name, viz_type, "table", dsid, params⟩], rfl⟩, ?_⟩
      rw [find?_append_none _ hf]
      simp [List.find?]
    · simp only [hc, if_false] at h
      simp at h

/-- Full trace of one run of `create_manufacturing_overview_dashboard`:
dataset requests are issued first, then chart requests, then at most one
dashboard request; the collected chart ids are exactly the ids of the chart
rows the server gained (pairwise distinct), and a created dashboard's layout
object is built over exactly those collected entries. -/
theorem overview_run_spec (o : Oracle) (dbid : Nat) (srv : Server) (h1 : 1 ≤ srv.nextId) :
    ∃ (cs : List ChartPos) (nr : List ChartRow) (l1 l2 l3 : List Req),
      (create_manufacturing_overview_dashboard o dbid srv).2.databases = srv.databases ∧
      (create_manufacturing_overview_dashboard o dbid srv).2.charts = srv.charts ++ nr ∧
      cs.map (fun c => c.id) = nr.map (fun c => c.id) ∧
      (cs.map (fun c => c.id)).Nodup ∧
      (create_manufacturing_overview_dashboard o dbid srv).2.log =
        srv.log ++ l1 ++ l2 ++ l3 ∧
      (∀ e ∈ l1, ∃ nm, e = Req.dsReq nm) ∧
      (∀ e ∈ l2, ∃ nm, e = Req.chartReq nm) ∧
      (∀ e ∈ l3, ∃ nm, e = Req.dashReq nm) ∧
      ((create_manufacturing_overview_dashboard o dbid srv).1 = none →
        (create_manufacturing_overview_dashboard o dbid srv).2.dashboards = srv.dashboards) ∧
      (∀ did, (create_manufacturing_overview_dashboard o dbid srv).1 = some did →
        (create_manufacturing_overview_dashboard o dbid srv).2.dashboards =
          srv.dashboards ++
            [⟨did, ⟨"Manufacturing Overview", "manufacturing-overview",
              .jobj (cs.map chartPosEntry), some "", some overviewJsonMetadata⟩⟩] ∧
        l3 = [Req.dashReq "Manufacturing Overview"]) := by
  unfold create_manufacturing_overview_dashboard
  obtain ⟨l1, hch0, hdsh0, hdbs0, hni0, ⟨ld, hds0⟩, hlog0, hkind0⟩ :=
    createDatasetsLoop_spec o dbid overviewViews srv
  rcases hds : createDatasetsLoop o dbid overviewViews srv with ⟨datasets, srv0⟩
  rw [hds] at hch0 hdsh0 hdbs0 hni0 hds0 hlog0
  dsimp only at hch0 hdsh0 hdbs0 hni0 hds0 hlog0 ⊢
  cases datasets with
  | nil =>
    refine ⟨[], [], l1, [], [], hdbs0, by simp [hch0], rfl, by simp, by simp [hlog0],
      hkind0, by simp, by simp, fun _ => hdsh0, fun did h => by simp at h⟩
  | cons d0 ds0 =>
    dsimp only
    have hp0 : 1 ≤ srv0.nextId := le_trans h1 hni0
    obtain ⟨nr1, le1, q1dst, q1dsh, q1dbs, q1ni, q1ch, q1acc, q1bnd, q1shape, q1log, q1kind⟩ :=
      addChartStep_spec o (d0 :: ds0) "v_kpi_summary" overviewOeeChart 4 4 [] srv0 hp0
    rcases hs1 : addChartStep o (d0 :: ds0) "v_kpi_summary" overviewOeeChart 4 4 [] srv0
      with ⟨acc1, srv1⟩
    rw [hs1] at q1dst q1dsh q1dbs q1ni q1ch q1acc q1bnd q1log
    dsimp only at q1dst q1dsh q1dbs q1ni q1ch q1acc q1bnd q1log ⊢
    have hp1 : 1 ≤ srv1.nextId := le_trans hp0 q1ni
    obtain ⟨nr2, le2, q2dst, q2dsh, q2dbs, q2ni, q2ch, q2acc, q2bnd, q2shape, q2log, q2kind⟩ :=
      addChartStep_spec o (d0 :: ds0) "v_realtime_production" overviewProductionChart 8 4
        acc1 srv1 hp1
    rcases hs2 : addChartStep o (d0 :: ds0) "v_realtime_production" overviewProductionChart 8 4
        acc1 srv1 with ⟨acc2, srv2⟩
    rw [hs2] at q2dst q2dsh q2dbs q2ni q2ch q2acc q2bnd q2log
    dsimp only at q2dst q2dsh q2dbs q2ni q2ch q2acc q2bnd q2log ⊢
    have hp2 : 1 ≤ srv2.nextId := le_trans hp1 q2ni
    obtain ⟨nr3, le3, q3dst, q3dsh, q3dbs, q3ni, q3ch, q3acc, q3bnd, q3shape, q3log, q3kind⟩ :=
      addChartStep_spec o (d0 :: ds0) "v_equipment_status" overviewEquipmentChart 6 5
        acc2 srv2 hp2
    rcases hs3 : addChartStep o (d0 :: ds0) "v_equipment_status" overviewEquipmentChart 6 5
        acc2 srv2 with ⟨acc3, srv3⟩
    rw [hs3] at q3dst q3dsh q3dbs q3ni q3ch q3acc q3bnd q3log
    dsimp only at q3dst q3dsh q3dbs q3ni q3ch q3acc q3bnd q3log ⊢
    have hp3 : 1 ≤ srv3.nextId := le_trans hp2 q3ni
    obtain ⟨nr4, le4, q4dst, q4dsh, q4dbs, q4ni, q4ch, q4acc, q4bnd, q4shape, q4log, q4kind⟩ :=
      addChartStep_spec o (d0 :: ds0) "v_quality_metrics" overviewQualityChart 6 3
        acc3 srv3 hp3
    rcases hs4 : addChartStep o (d0 :: ds0) "v_quality_metrics" overviewQualityChart 6 3
        acc3 srv3 with ⟨acc4, srv4⟩
    rw [hs4] at q4dst q4dsh q4dbs q4ni q4ch q4acc q4bnd q4log
    dsimp only at q4dst q4dsh q4dbs q4ni q4ch q4acc q4bnd q4log ⊢
    -- accumulated invariant on collected chart ids
    have inv1 := accInv_step [] 4 4 (by simp) (by simp) q1bnd q1shape q1ni
    rw [← q1acc] at inv1
    have inv2 := accInv_step acc1 8 4 inv1.1 inv1.2 q2bnd q2shape q2ni
    rw [← q2acc] at inv2
    have inv3 := accInv_step acc2 6 5 inv2.1 inv2.2 q3bnd q3shape q3ni
    rw [← q3acc] at inv3
    have inv4 := accInv_step acc3 6 3 inv3.1 inv3.2 q4bnd q4shape q4ni
    rw [← q4acc] at inv4
    -- ids of collected charts = ids of new chart rows
    have hids : acc4.map (fun c => c.id) =
        (nr1 ++ nr2 ++ nr3 ++ nr4).map (fun c => c.id) := by
      rw [q4acc, q3acc, q2acc, q1acc]
      simp only [List.map_append, List.map_map, List.nil_append]
      rfl
    -- accumulated charts of the server
    have hch4 : srv4.charts = srv.charts ++ (nr1 ++ nr2 ++ nr3 ++ nr4) := by
      rw [q4ch, q3ch, q2ch, q1ch, hch0]
      simp [List.append_assoc]
    -- accumulated log
    have hlog4 : srv4.log = srv.log ++ l1 ++ (le1 ++ le2 ++ le3 ++ le4) := by
      rw [q4log, q3log, q2log, q1log, hlog0]
      simp [List.append_assoc]
    have hdbs4 : srv4.databases = srv.databases := by
      rw [q4dbs, q3dbs, q2dbs, q1dbs, hdbs0]
    have hdsh4 : srv4.dashboards = srv.dashboards := by
      rw [q4dsh, q3dsh, q2dsh, q1dsh, hdsh0]
    have hkinds2 : ∀ e ∈ le1 ++ le2 ++ le3 ++ le4, ∃ nm, e = Req.chartReq nm := by
      intro e he
      rcases List.mem_append.mp he with he | he
      · rcases List.mem_append.mp he with he | he
        · rcases List.mem_append.mp he with he | he
          · exact q1kind e he
          · exact q2kind e he
        · exact q3kind e he
      · exact q4kind e he
    cases hacc4 : acc4 with
    | nil =>
      rw [hacc4] at hids inv4
      rw [dashboardStep_nil]
      refine ⟨[], nr1 ++ nr2 ++ nr3 ++ nr4, l1, le1 ++ le2 ++ le3 ++ le4, [], hdbs4, hch4,
        hids, by simp, by simp [hlog4], hkind0, hkinds2, by simp, fun _ => hdsh4,
        fun did h => by simp at h⟩
    | cons cp cps =>
      rw [hacc4] at hids inv4
      by_cases hdok : o.dashOk "Manufacturing Overview"
      · rw [dashboardStep_ok (by simp) hdok]
        refine ⟨cp :: cps, nr1 ++ nr2 ++ nr3 ++ nr4, l1, le1 ++ le2 ++ le3 ++ le4,
          [Req.dashReq "Manufacturing Overview"], hdbs4, hch4, hids, inv4.1,
          by simp [hlog4], hkind0, hkinds2, by simp, by intro h; simp at h, ?_⟩
        intro did hdid
        simp only [Option.some.injEq] at hdid
        subst hdid
        exact ⟨by rw [hdsh4], rfl⟩
      · rw [dashboardStep_fail (by simp) (by simpa using hdok)]
        refine ⟨cp :: cps, nr1 ++ nr2 ++ nr3 ++ nr4, l1, le1 ++ le2 ++ le3 ++ le4,
          [Req.dashReq "Manufacturing Overview"], hdbs4, hch4, hids, inv4.1,
          by simp [hlog4], hkind0, hkinds2, by simp, fun _ => hdsh4,
          fun did h => by simp at h⟩

/-- A dataset lookup that hits reuses the row and leaves the session untouched. -/
theorem getOrCreateTable_found {v : String} {i : Nat} {s : OrmState} {t : SqlaTableRow}
    (h : s.tables.find? (fun x => x.table_name == v && x.database_id == i) = some t) :
    getOrCreateTable v i s = (.ok t, s) := by
  unfold getOrCreateTable; rw [h]

/-- A chart lookup that hits reuses the row and leaves the session untouched. -/
theorem create_or_get_slice_found {name viz_type : String} {dsid : Nat} {params : JVal}
    {s : OrmState} {c : SliceRow}
    (h : s.slices.find? (fun x => x.slice_name == name) = some c) :
    create_or_get_slice name viz_type dsid params s = (.ok c, s) := by
  unfold create_or_get_slice; rw [h]

/-- With all commits succeeding, the dataset step cannot raise. -/
theorem getOrCreateTable_progress (v : String) (i : Nat) {s : OrmState}
    (hok : ∀ n, s.commitOk n = true) :
    ∃ t s', getOrCreateTable v i s = (.ok t, s') ∧ (∀ n, s'.commitOk n = true) := by
  unfold getOrCreateTable
  cases hf : s.tables.find? (fun x => x.table_name == v && x.database_id == i) with
  | some t0 => exact ⟨t0, s, rfl, hok⟩
  | none =>
    unfold obind commit
    simp only [hok]
    exact ⟨_, _, rfl, hok⟩

/-- Full trace of a successful (non-raising) run of the ORM script, given
that the manufacturing database row is present: the database table and the
commit oracle are untouched, a dataset row is findable for each of the three
views, a slice is findable for each of the three chart names, and the
dashboard is either reused (state untouched on that table) or created once,
wired to the three slices obtained. -/
theorem cmdSpec {s : OrmState} {mdb : DatabaseRow}
    (hdb : s.databases.find? (fun d => d.database_name == "Manufacturing TimescaleDB")
      = some mdb)
    {r : Option Nat} {s' : OrmState}
    (hrun : create_manufacturing_dashboard s = (.ok r, s')) :
    s'.databases = s.databases ∧
    s'.commitOk = s.commitOk ∧
    (∃ t, s'.tables.find?
      (fun x => x.table_name == "dashboard_production_overview" && x.database_id == mdb.id)
      = some t) ∧
    (∃ t, s'.tables.find?
      (fun x => x.table_name == "dashboard_equipment_performance" && x.database_id == mdb.id)
      = some t) ∧
    (∃ t, s'.tables.find?
      (fun x => x.table_name == "dashboard_realtime_kpis" && x.database_id == mdb.id)
      = some t) ∧
    ∃ c1 c2 c3,
      s'.slices.find? (fun x => x.slice_name == "Production Trend - 24 Hours") = some c1 ∧
      s'.slices.find? (fun x => x.slice_name == "Current OEE") = some c2 ∧
      s'.slices.find? (fun x => x.slice_name == "Equipment Performance") = some c3 ∧
      (match s.dashboards.find? (fun d => d.dashboard_title == "Manufacturing Overview") with
       | some d => s'.dashboards = s.dashboards ∧ r = some d.id
       | none => ∃ dRow : DashboardRow,
           s'.dashboards = s.dashboards ++ [dRow] ∧
           dRow.dashboard_title = "Manufacturing Overview" ∧
           dRow.slug = "manufacturing-overview" ∧
           dRow.slice_ids = [c1.id, c2.id, c3.id] ∧
           dRow.position_json = ormPosition c1.id c2.id c3.id ∧
           dRow.published = true ∧
           r = some dRow.id) := by
  unfold create_manufacturing_dashboard at hrun
  rw [hdb] at hrun
  dsimp only at hrun
  rcases e1 : getOrCreateTable "dashboard_production_overview" mdb.id s with ⟨r1, s1⟩
  rw [e1] at hrun
  cases r1 with
  | error err => simp [obind] at hrun
  | ok t1 =>
  simp only [obind] at hrun
  obtain ⟨g1dbs, g1sl, g1dash, g1ok, ⟨lt1, g1tab⟩, g1find⟩ := getOrCreateTable_spec e1
  rcases e2 : getOrCreateTable "dashboard_equipment_performance" mdb.id s1 with ⟨r2, s2⟩
  rw [e2] at hrun
  cases r2 with
  | error err => simp [obind] at hrun
  | ok t2 =>
  simp only [obind] at hrun
  obtain ⟨g2dbs, g2sl, g2dash, g2ok, ⟨lt2, g2tab⟩, g2find⟩ := getOrCreateTable_spec e2
  rcases e3 : getOrCreateTable "dashboard_realtime_kpis" mdb.id s2 with ⟨r3, s3⟩
  rw [e3] at hrun
  cases r3 with
  | error err => simp [obind] at hrun
  | ok t3 =>
  simp only [obind] at hrun
  obtain ⟨g3dbs, g3sl, g3dash, g3ok, ⟨lt3, g3tab⟩, g3find⟩ := getOrCreateTable_spec e3
  rcases e4 : create_or_get_slice "Production Trend - 24 Hours" "line" t1.id
      (production_chart_params t1.id) s3 with ⟨r4, s4⟩
  rw [e4] at hrun
  cases r4 with
  | error err => simp [obind] at hrun
  | ok c1 =>
  simp only [obind] at hrun
  obtain ⟨g4dbs, g4tab, g4dash, g4ok, ⟨ls4, g4sl⟩, g4find⟩ := create_or_get_slice_spec e4
  rcases e5 : create_or_get_slice "Current OEE" "big_number_total" t3.id
      (oee_chart_params t3.id) s4 with ⟨r5, s5⟩
  rw [e5] at hrun
  cases r5 with
  | error err => simp [obind] at hrun
  | ok c2 =>
  simp only [obind] at hrun
  obtain ⟨g5dbs, g5tab, g5dash, g5ok, ⟨ls5, g5sl⟩, g5find⟩ := create_or_get_slice_spec e5
  rcases e6 : create_or_get_slice "Equipment Performance" "table" t2.id
      (equipment_chart_params t2.id) s5 with ⟨r6, s6⟩
  rw [e6] at hrun
  cases r6 with
  | error err => simp [obind] at hrun
  | ok c3 =>
  simp only [obind] at hrun
  obtain ⟨g6dbs, g6tab, g6dash, g6ok, ⟨ls6, g6sl⟩, g6find⟩ := create_or_get_slice_spec e6
  -- facts transported to s6
  have hdbs6 : s6.databases = s.databases := by
    rw [g6dbs, g5dbs, g4dbs, g3dbs, g2dbs, g1dbs]
  have hok6 : s6.commitOk = s.commitOk := by
    rw [g6ok, g5ok, g4ok, g3ok, g2ok, g1ok]
  have hdash6 : s6.dashboards = s.dashboards := by
    rw [g6dash, g5dash, g4dash, g3dash, g2dash, g1dash]
  have f1 : s6.tables.find?
      (fun x => x.table_name == "dashboard_production_overview" && x.database_id == mdb.id)
      = some t1 := by
    rw [g6tab, g5tab, g4tab, g3tab, g2tab]
    exact find?_append_some _ (find?_append_some _ g1find)
  have f2 : s6.tables.find?
      (fun x => x.table_name == "dashboard_equipment_performance" && x.database_id == mdb.id)
      = some t2 := by
    rw [g6tab, g5tab, g4tab, g3tab]
    exact find?_append_some _ g2find
  have f3 : s6.tables.find?
      (fun x => x.table_name == "dashboard_realtime_kpis" && x.database_id == mdb.id)
      = some t3 := by
    rw [g6tab, g5tab, g4tab]
    exact g3find
  have f4 : s6.slices.find? (fun x => x.slice_name == "Production Trend - 24 Hours")
      = some c1 := by
    rw [g6sl, g5sl]
    exact find?_append_some _ (find?_append_some _ g4find)
  have f5 : s6.slices.find? (fun x => x.slice_name == "Current OEE") = some c2 := by
    rw [g6sl]
    exact find?_append_some _ g5find
  have f6 : s6.slices.find? (fun x => x.slice_name == "Equipment Performance") = some c3 :=
    g6find
  rw [hdash6] at hrun
  rcases ed : s.dashboards.find? (fun d => d.dashboard_title == "Manufacturing Overview")
    with _ | d
  · -- no dashboard yet: created and committed
    rw [ed] at hrun
    dsimp only at hrun
    unfold commit at hrun
    by_cases hc : s6.commitOk s6.commitCtr
    · simp only [hc, if_true] at hrun
      simp only [Prod.mk.injEq, Except.ok.injEq] at hrun
      obtain ⟨hr, hs⟩ := hrun
      subst hr; subst hs
      rw [ed]
      refine ⟨hdbs6, hok6, ⟨t1, f1⟩, ⟨t2, f2⟩, ⟨t3, f3⟩, c1, c2, c3, f4, f5, f6,
        ⟨s6.nextId, "Manufacturing Overview", "manufacturing-overview",
          [c1.id, c2.id, c3.id], ormPosition c1.id c2.id c3.id, true⟩,
        by rw [← hdash6], rfl, rfl, rfl, rfl, rfl, rfl⟩
    · simp only [hc, if_false] at hrun
      simp at hrun
  · -- dashboard already present: reused
    rw [ed] at hrun
    dsimp only at hrun
    simp only [Prod.mk.injEq, Except.ok.injEq] at hrun
    obtain ⟨hr, hs⟩ := hrun
    subst hr; subst hs
    rw [ed]
    exact ⟨hdbs6, hok6, ⟨t1, f1⟩, ⟨t2, f2⟩, ⟨t3, f3⟩, c1, c2, c3, f4, f5, f6,
      by rw [hdash6], rfl⟩

/-- With all commits succeeding, the chart step cannot raise. -/
theorem create_or_get_slice_progress (name viz_type : String) (dsid : Nat) (params : JVal)
    {s : OrmState} (hok : ∀ n, s.commitOk n = true) :
    ∃ c s', create_or_get_slice name viz_type dsid params s = (.ok c, s') ∧
      (∀ n, s'.commitOk n = true) := by
  unfold create_or_get_slice
  cases hf : s.slices.find? (fun x => x.slice_name == name) with
  | some c0 => exact ⟨c0, s, rfl, hok⟩
  | none =>
    unfold obind commit
    simp only [hok]
    exact ⟨_, _, rfl, hok⟩

/-- When every entity is already present, a run of the ORM script performs
pure lookups: it returns the existing dashboard id and leaves the session
state exactly unchanged. -/
theorem cmd_noCreate {s : OrmState} {mdb : DatabaseRow} {t1 t2 t3 : SqlaTableRow}
    {c1 c2 c3 : SliceRow} {d : DashboardRow}
    (hdb : s.databases.find? (fun x => x.database_name == "Manufacturing TimescaleDB")
      = some mdb)
    (h1 : s.tables.find?
      (fun x => x.table_name == "dashboard_production_overview" && x.database_id == mdb.id)
      = some t1)
    (h2 : s.tables.find?
      (fun x => x.table_name == "dashboard_equipment_performance" && x.database_id == mdb.id)
      = some t2)
    (h3 : s.tables.find?
      (fun x => x.table_name == "dashboard_realtime_kpis" && x.database_id == mdb.id)
      = some t3)
    (h4 : s.slices.find? (fun x => x.slice_name == "Production Trend - 24 Hours") = some c1)
    (h5 : s.slices.find? (fun x => x.slice_name == "Current OEE") = some c2)
    (h6 : s.slices.find? (fun x => x.slice_name == "Equipment Performance") = some c3)
    (hd : s.dashboards.find? (fun x => x.dashboard_title == "Manufacturing Overview")
      = some d) :
    create_manufacturing_dashboard s = (.ok (some d.id), s) := by
  unfold create_manufacturing_dashboard
  rw [hdb]
  dsimp only
  rw [getOrCreateTable_found h1]
  simp only [obind]
  rw [getOrCreateTable_found h2]
  simp only [obind]
  rw [getOrCreateTable_found h3]
  simp only [obind]
  rw [create_or_get_slice_found h4]
  simp only [obind]
  rw [create_or_get_slice_found h5]
  simp only [obind]
  rw [create_or_get_slice_found h6]
  simp only [obind]
  rw [hd]

/-- With the database row present and all commits succeeding, the ORM run
cannot raise. -/
theorem cmdProgress {s : OrmState} {mdb : DatabaseRow}
    (hdb : s.databases.find? (fun x => x.database_name == "Manufacturing TimescaleDB")
      = some mdb)
    (hok : ∀ n, s.commitOk n = true) :
    ∃ r s', create_manufacturing_dashboard s = (.ok r, s') := by
  unfold create_manufacturing_dashboard
  rw [hdb]
  dsimp only
  obtain ⟨t1, s1, he1, hok1⟩ := getOrCreateTable_progress
    "dashboard_production_overview" mdb.id hok
  rw [he1]
  simp only [obind]
  obtain ⟨t2, s2, he2, hok2⟩ := getOrCreateTable_progress
    "dashboard_equipment_performance" mdb.id hok1
  rw [he2]
  simp only [obind]
  obtain ⟨t3, s3, he3, hok3⟩ := getOrCreateTable_progress
    "dashboard_realtime_kpis" mdb.id hok2
  rw [he3]
  simp only [obind]
  obtain ⟨c1, s4, he4, hok4⟩ := create_or_get_slice_progress
    "Production Trend - 24 Hours" "line" t1.id (production_chart_params t1.id) hok3
  rw [he4]
  simp only [obind]
  obtain ⟨c2, s5, he5, hok5⟩ := create_or_get_slice_progress
    "Current OEE" "big_number_total" t3.id (oee_chart_params t3.id) hok4
  rw [he5]
  simp only [obind]
  obtain ⟨c3, s6, he6, hok6⟩ := create_or_get_slice_progress
    "Equipment Performance" "table" t2.id (equipment_chart_params t2.id) hok5
  rw [he6]
  simp only [obind]
  rcases ed : s6.dashboards.find? (fun x => x.dashboard_title == "Manufacturing Overview")
    with _ | d
  · rw [ed]
    dsimp only
    unfold commit
    simp only [hok6, if_true]
    exact ⟨_, _, rfl⟩
  · rw [ed]
    exact ⟨_, _, rfl⟩

theorem waitGo_true_iff (health : Nat → Option Nat) :
    ∀ fuel i, waitGo health fuel i = true ↔ ∃ j, j < fuel ∧ health (i + j) = some 200 := by
  intro fuel
  induction fuel with
  | zero => intro i; simp [waitGo]
  | succ n ih =>
    intro i
    by_cases hc : health i = some 200
    · simp only [waitGo, hc, if_true, true_iff]
      exact ⟨0, Nat.succ_pos n, by simpa using hc⟩
    · simp only [waitGo]
      rw [if_neg hc, ih (i + 1)]
      constructor
      · rintro ⟨j, hj, hh⟩
        exact ⟨j + 1, by omega, by rw [show i + (j + 1) = i + 1 + j by omega]; exact hh⟩
      · rintro ⟨j, hj, hh⟩
        cases j with
        | zero => exact absurd (by simpa using hh) hc
        | succ j => exact ⟨j, by omega, by rw [show i + 1 + j = i + (j + 1) by omega]; exact hh⟩

theorem waitPolls_le (health : Nat → Option Nat) :
    ∀ fuel i, waitPolls health fuel i ≤ fuel := by
  intro fuel
  induction fuel with
  | zero => intro i; simp [waitPolls]
  | succ n ih =>
    intro i
    by_cases hc : health i = some 200
    · simp [waitPolls, hc]
    · simp only [waitPolls]
      rw [if_neg hc]
      have := ih (i + 1)
      omega

theorem waitPolls_first (health : Nat → Option Nat) :
    ∀ fuel j i, j < fuel → health (i + j) = some 200 →
      (∀ k, k < j → health (i + k) ≠ some 200) →
      waitPolls health fuel i = j + 1 ∧ waitGo health fuel i = true := by
  intro fuel
  induction fuel with
  | zero => intro j i hj _ _; omega
  | succ n ih =>
    intro j i hj hs hk
    cases j with
    | zero =>
      have h0 : health i = some 200 := by simpa using hs
      simp [waitPolls, waitGo, h0]
    | succ j =>
      have hne : health i ≠ some 200 := by simpa using hk 0 (Nat.succ_pos j)
      have hrec := ih j (i + 1) (by omega)
        (by rw [show i + 1 + j = i + (j + 1) by omega]; exact hs)
        (fun k hk' => by
          rw [show i + 1 + k = i + (k + 1) by omega]
          exact hk (k + 1) (by omega))
      simp only [waitPolls, waitGo]
      rw [if_neg hne, if_neg hne]
      exact ⟨by rw [hrec.1], hrec.2⟩


/-! ## Claim theorems -/

/-- C4: `wait_for_superset` is a bounded fixed-interval polling loop with
default bound 30: it polls at most `max_retries` times, returns `True` as
soon as a poll answers 200 (after exactly first-success-index + 1 polls),
returns `False` exactly when no poll within the bound answers 200, and — as
a total function — always terminates. -/
theorem C4_wait_for_superset_bounded :
    wait_for_superset_default_retries = 30 ∧
    ∀ (health : Nat → Option Nat) (n : Nat),
      (wait_for_superset health n = true ↔ ∃ i, i < n ∧ health i = some 200) ∧
      (wait_for_superset health n = false ↔ ∀ i, i < n → health i ≠ some 200) ∧
      waitPolls health n 0 ≤ n ∧
      (∀ j, j < n → health j = some 200 → (∀ k, k < j → health k ≠ some 200) →
        waitPolls health n 0 = j + 1 ∧ wait_for_superset health n = true) := by
  refine ⟨rfl, fun health n => ?_⟩
  have hiff : wait_for_superset health n = true ↔ ∃ i, i < n ∧ health i = some 200 := by
    simpa [wait_for_superset] using waitGo_true_iff health n 0
  refine ⟨hiff, ?_, waitPolls_le health n 0, ?_⟩
  · constructor
    · intro hf i hi hs
      rw [hiff.mpr ⟨i, hi, hs⟩] at hf
      exact Bool.noConfusion hf
    · intro hall
      cases hw : wait_for_superset health n with
      | false => rfl
      | true =>
        obtain ⟨i, hi, hs⟩ := hiff.mp hw
        exact absurd hs (hall i hi)
  · intro j hj hs hk
    have hh := waitPolls_first health n j 0 hj (by simpa using hs)
      (fun k hk' => by simpa using hk k hk')
    exact ⟨hh.1, hh.2⟩

/-- Health responses for the C4 witness: 200 on the third poll. -/
def c4Health : Nat → Option Nat := fun i => if i = 2 then some 200 else some 500

theorem C4_witness :
    wait_for_superset c4Health 30 = true ∧ waitPolls c4Health 30 0 = 3 := by
  have h := C4_wait_for_superset_bounded.2 c4Health 30
  have hj := h.2.2.2 2 (by decide) (by decide) (by decide)
  exact ⟨hj.2, hj.1⟩

/-- C10: `create_or_get_slice` matches an existing chart by `slice_name`
alone: whenever a slice with the requested name is findable, the call returns
that stored slice and leaves the session state entirely unchanged, whatever
`viz_type`, `datasource_id` and `params` were requested. -/
theorem C10_slice_match_by_name_only :
    ∀ (s : OrmState) (name viz_type : String) (dsid : Nat) (params : JVal) (c : SliceRow),
      s.slices.find? (fun x => x.slice_name == name) = some c →
      create_or_get_slice name viz_type dsid params s = (.ok c, s) :=
  fun _ _ _ _ _ _ h => create_or_get_slice_found h

/-- Stored slice for the C10 witness (viz `line`, datasource 5, null params). -/
def c10Slice : SliceRow := ⟨1, "Current OEE", "line", "table", 5, .jnull⟩

/-- Session state for the C10 witness. -/
def c10State : OrmState := ⟨[], [], [c10Slice], [], 7, 0, fun _ => true⟩

theorem C10_witness :
    create_or_get_slice "Current OEE" "big_number_total" 9 (.jstr "different") c10State =
      (.ok c10Slice, c10State) :=
  C10_slice_match_by_name_only c10State "Current OEE" "big_number_total" 9
    (.jstr "different") c10Slice rfl

/-- C2: with no database connection named 'Manufacturing TimescaleDB', the
ORM script returns `None` with the session untouched, and the REST creator
returns the empty dict with the server untouched (in particular, no creation
request is issued: even the request log is unchanged). -/
theorem C2_absent_database_creates_nothing :
    (∀ s : OrmState,
       s.databases.find? (fun d => d.database_name == "Manufacturing TimescaleDB") = none →
       create_manufacturing_dashboard s = (.ok none, s)) ∧
    (∀ (o : Oracle) (srv : Server),
       srv.databases.find? (fun d => d.database_name == "Manufacturing TimescaleDB") = none →
       create_all_dashboards o srv = ([], srv)) := by
  constructor
  · intro s h
    unfold create_manufacturing_dashboard
    rw [h]
  · intro o srv h
    unfold create_all_dashboards
    cases hw : wait_for_superset o.health wait_for_superset_default_retries
    · simp
    · cases ha : o.authOk
      · simp [ha]
      · have hg : get_database_id o srv "Manufacturing TimescaleDB" = none := by
          unfold get_database_id
          cases o.listOk <;> simp [h]
        simp [ha, hg, truthy]

/-- Session state for the C2 witness: no databases at all. -/
def c2OrmState : OrmState := ⟨[], [], [], [], 1, 0, fun _ => true⟩

/-- All-успех oracle for the C2 witness. -/
def c2Oracle : Oracle :=
  ⟨fun _ => some 200, true, true, fun _ => true, fun _ => true, fun _ => true⟩

/-- Server for the C2 witness: one database, but with a different name. -/
def c2Server : Server :=
  ⟨[⟨1, "Other DB", "uri", true, true, true, true, true⟩], [], [], [], 2, []⟩

theorem C2_witness :
    create_manufacturing_dashboard c2OrmState = (.ok none, c2OrmState) ∧
    create_all_dashboards c2Oracle c2Server = ([], c2Server) :=
  ⟨C2_absent_database_creates_nothing.1 c2OrmState rfl,
   C2_absent_database_creates_nothing.2 c2Oracle c2Server rfl⟩

/-- C7: the startup hook creates the 'Manufacturing TimescaleDB' record iff
no record with that name exists; an existing record leaves the state exactly
unchanged; a commit exception is caught and logged (the record list is
unchanged, the function returns normally); and `init_app` runs the hook
right after the platform's own initialization. -/
theorem C7_startup_hook_provisioning :
    (∀ (env : String → Option String) (cOk : Bool) (s : ConfigState),
       (s.databases.find? (fun d => d.database_name == "Manufacturing TimescaleDB")).isSome →
       init_manufacturing_database env cOk s = s) ∧
    (∀ (env : String → Option String) (s : ConfigState),
       s.databases.find? (fun d => d.database_name == "Manufacturing TimescaleDB") = none →
       init_manufacturing_database env true s =
         { s with
           databases := s.databases ++
             [⟨s.nextId, "Manufacturing TimescaleDB", manufacturingUri env,
               true, true, true, true, true⟩],
           nextId := s.nextId + 1,
           infoLog := s.infoLog ++
             ["Manufacturing database connection created successfully"] }) ∧
    (∀ (env : String → Option String) (s : ConfigState),
       s.databases.find? (fun d => d.database_name == "Manufacturing TimescaleDB") = none →
       init_manufacturing_database env false s =
         { s with errorLog := s.errorLog ++
             ["Failed to create manufacturing database connection"] }) ∧
    (∀ (superInit : ConfigState → ConfigState) (env : String → Option String)
       (cOk : Bool) (s : ConfigState),
       customInitApp superInit env cOk s = init_manufacturing_database env cOk (superInit s)) := by
  refine ⟨?_, ?_, ?_, fun _ _ _ _ => rfl⟩
  · intro env cOk s h
    unfold init_manufacturing_database
    rcases hf : s.databases.find? (fun d => d.database_name == "Manufacturing TimescaleDB")
      with _ | d
    · rw [hf] at h
      exact absurd h (by simp)
    · rw [hf]
  · intro env s h
    unfold init_manufacturing_database
    rw [h]
    rfl
  · intro env s h
    unfold init_manufacturing_database
    rw [h]
    rfl

/-- Empty configuration state for the C7 witness. -/
def c7Empty : ConfigState := ⟨[], 1, [], []⟩

/-- The database row the hook creates under an empty environment. -/
def c7Row : DatabaseRow :=
  ⟨1, "Manufacturing TimescaleDB", manufacturingUri (fun _ => none),
    true, true, true, true, true⟩

/-- Configuration state for the C7 witness where the row already exists. -/
def c7Present : ConfigState := ⟨[c7Row], 2, [], []⟩

theorem C7_witness :
    init_manufacturing_database (fun _ => none) true c7Present = c7Present ∧
    init_manufacturing_database (fun _ => none) true c7Empty =
      { c7Empty with
        databases := [c7Row],
        nextId := 2,
        infoLog := ["Manufacturing database connection created successfully"] } ∧
    init_manufacturing_database (fun _ => none) false c7Empty =
      { c7Empty with errorLog := ["Failed to create manufacturing database connection"] } := by
  refine ⟨C7_startup_hook_provisioning.1 (fun _ => none) true c7Present rfl, ?_, ?_⟩
  · exact C7_startup_hook_provisioning.2.1 (fun _ => none) c7Empty rfl
  · exact C7_startup_hook_provisioning.2.2.1 (fun _ => none) c7Empty rfl

/-- C8: the `__main__` block catches any exception from the creator, prints
the error and a stack trace, performs exactly one session rollback, and
returns normally; a non-raising run performs no rollback. -/
theorem C8_orm_top_level_error_handling :
    ∀ s : OrmState,
      (∀ (e : String) (s₁ : OrmState),
        create_manufacturing_dashboard s = (.error e, s₁) →
        ormMain s = (⟨none, true, true, 1⟩, s₁)) ∧
      (∀ (r : Option Nat) (s₁ : OrmState),
        create_manufacturing_dashboard s = (.ok r, s₁) →
        ormMain s = (⟨r, false, false, 0⟩, s₁)) := by
  intro s
  constructor
  · intro e s₁ h
    unfold ormMain
    rw [h]
  · intro r s₁ h
    unfold ormMain
    rw [h]

/-- Session state for the C8 witness: the database row is present, the
first commit raises. -/
def c8Failing : OrmState :=
  ⟨[⟨1, "Manufacturing TimescaleDB", "uri", true, true, true, true, true⟩],
   [], [], [], 2, 0, fun _ => false⟩

/-- The session state left behind by the raising run of the C8 witness. -/
def c8FailingAfter : OrmState :=
  { c8Failing with
    tables := [⟨2, "dashboard_production_overview", 1⟩],
    nextId := 3,
    commitCtr := 1 }

theorem C8_witness :
    create_manufacturing_dashboard c8Failing = (.error "commit raised", c8FailingAfter) ∧
    ormMain c8Failing = (⟨none, true, true, 1⟩, c8FailingAfter) := by
  have h : create_manufacturing_dashboard c8Failing = (.error "commit raised", c8FailingAfter) :=
    rfl
  exact ⟨h, (C8_orm_top_level_error_handling c8Failing).1 "commit raised" c8FailingAfter h⟩

/-- C1 (amended): on the ORM path, a second run against the state left by a
successful first run performs no creation: it returns an existing dashboard
id with the session state exactly unchanged.  On the REST path,
`create_dataset` stores a new row unconditionally whenever the server accepts
the POST — the script performs no per-name existence check. -/
theorem C1_orm_idempotent_rest_unconditional :
    (∀ (s : OrmState) (i : Nat) (s₁ : OrmState),
       create_manufacturing_dashboard s = (.ok (some i), s₁) →
       ∃ j, create_manufacturing_dashboard s₁ = (.ok (some j), s₁)) ∧
    (∀ (o : Oracle) (t : String) (dbid : Nat) (srv : Server),
       o.datasetOk t = true →
       (create_dataset o t dbid srv).2.datasets =
         srv.datasets ++ [⟨srv.nextId, t, "public", dbid⟩]) := by
  constructor
  · intro s i s₁ hrun
    rcases hdb : s.databases.find? (fun d => d.database_name == "Manufacturing TimescaleDB")
      with _ | mdb
    · exfalso
      unfold create_manufacturing_dashboard at hrun
      rw [hdb] at hrun
      dsimp only at hrun
      simp at hrun
    · obtain ⟨hdbs, hok, ⟨t1, f1⟩, ⟨t2, f2⟩, ⟨t3, f3⟩, c1, c2, c3, f4, f5, f6, hmatch⟩ :=
        cmdSpec hdb hrun
      have hdb₁ : s₁.databases.find?
          (fun d => d.database_name == "Manufacturing TimescaleDB") = some mdb := by
        rw [hdbs]; exact hdb
      rcases hd : s.dashboards.find? (fun x => x.dashboard_title == "Manufacturing Overview")
        with _ | d
      · rw [hd] at hmatch
        dsimp only at hmatch
        obtain ⟨dRow, hds, ht, hslug, hsl, hpos, hpub, hr⟩ := hmatch
        have hd₁ : s₁.dashboards.find?
            (fun x => x.dashboard_title == "Manufacturing Overview") = some dRow := by
          rw [hds, find?_append_none _ hd]
          simp [List.find?, ht]
        exact ⟨dRow.id, cmd_noCreate hdb₁ f1 f2 f3 f4 f5 f6 hd₁⟩
      · rw [hd] at hmatch
        dsimp only at hmatch
        obtain ⟨hds, hr⟩ := hmatch
        have hd₁ : s₁.dashboards.find?
            (fun x => x.dashboard_title == "Manufacturing Overview") = some d := by
          rw [hds]; exact hd
        exact ⟨d.id, cmd_noCreate hdb₁ f1 f2 f3 f4 f5 f6 hd₁⟩
  · intro o t dbid srv h
    rw [create_dataset_ok h]

/-- ORM session for the C1 witness: every entity already present. -/
def c1Full : OrmState :=
  ⟨[⟨1, "Manufacturing TimescaleDB", "uri", true, true, true, true, true⟩],
   [⟨2, "dashboard_production_overview", 1⟩, ⟨3, "dashboard_equipment_performance", 1⟩,
    ⟨4, "dashboard_realtime_kpis", 1⟩],
   [⟨5, "Production Trend - 24 Hours", "line", "table", 2, .jnull⟩,
    ⟨6, "Current OEE", "big_number_total", "table", 4, .jnull⟩,
    ⟨7, "Equipment Performance", "table", "table", 3, .jnull⟩],
   [⟨8, "Manufacturing Overview", "manufacturing-overview", [5, 6, 7], .jnull, true⟩],
   9, 0, fun _ => true⟩

/-- Oracle for the C1 witness REST clause: every request accepted. -/
def c1Oracle : Oracle :=
  ⟨fun _ => some 200, true, true, fun _ => true, fun _ => true, fun _ => true⟩

/-- Server for the C1 witness REST clause. -/
def c1Srv : Server :=
  ⟨[⟨1, "Manufacturing TimescaleDB", "uri", true, true, true, true, true⟩], [], [], [], 2, []⟩

theorem C1_witness :
    (create_manufacturing_dashboard c1Full).2 = c1Full ∧
    (create_dataset c1Oracle "v_kpi_summary" 1 c1Srv).2.datasets =
      c1Srv.datasets ++ [⟨2, "v_kpi_summary", "public", 1⟩] := by
  obtain ⟨j, hj⟩ := C1_orm_idempotent_rest_unconditional.1 c1Full 8 c1Full rfl
  exact ⟨by rw [hj], C1_orm_idempotent_rest_unconditional.2 c1Oracle "v_kpi_summary" 1 c1Srv rfl⟩

/-- Oracle for the C1 counterexample: the server accepts every request. -/
def c1xOracle : Oracle :=
  ⟨fun _ => some 200, true, true, fun _ => true, fun _ => true, fun _ => true⟩

/-- Seed server for the C1 counterexample: only the named database. -/
def c1xServer : Server :=
  ⟨[⟨1, "Manufacturing TimescaleDB", "uri", true, true, true, true, true⟩], [], [], [], 2, []⟩

/-- C1 counterexample: on the REST path, a second run of the script against
the state left by the first run creates a second dataset named
`v_kpi_summary`, a second chart named `Current OEE` and a second dashboard
titled `Manufacturing Overview`, although the first run already created one
of each — the script performs creation for names that already exist. -/
theorem C1_counterexample :
    ((create_all_dashboards c1xOracle c1xServer).2.datasets.filter
       (fun d => d.table_name == "v_kpi_summary")).length = 1 ∧
    ((create_all_dashboards c1xOracle
        (create_all_dashboards c1xOracle c1xServer).2).2.datasets.filter
       (fun d => d.table_name == "v_kpi_summary")).length = 2 ∧
    ((create_all_dashboards c1xOracle c1xServer).2.charts.filter
       (fun c => c.config.slice_name == "Current OEE")).length = 1 ∧
    ((create_all_dashboards c1xOracle
        (create_all_dashboards c1xOracle c1xServer).2).2.charts.filter
       (fun c => c.config.slice_name == "Current OEE")).length = 2 ∧
    ((create_all_dashboards c1xOracle c1xServer).2.dashboards.filter
       (fun d => d.config.dashboard_title == "Manufacturing Overview")).length = 1 ∧
    ((create_all_dashboards c1xOracle
        (create_all_dashboards c1xOracle c1xServer).2).2.dashboards.filter
       (fun d => d.config.dashboard_title == "Manufacturing Overview")).length = 2 := by
  refine ⟨rfl, rfl, rfl, rfl, rfl, rfl⟩

/-- C3: every entity-provisioning operation is a lookup-or-create.  For the
dataset and chart steps: an existing row (matched by view name + database id,
resp. by slice name) is returned with the session unchanged, and a missing
row leads to exactly one new committed row with that name.  For the config
hook: an existing record leaves the state unchanged, a missing one is
appended exactly once.  For the dashboard title, within a successful ORM
run: an existing dashboard is reused (`dashboards` unchanged, its id
returned), a missing one leads to exactly one appended row with that title
whose id is returned. -/
theorem C3_lookup_or_create :
    (∀ (v : String) (i : Nat) (s : OrmState) (t : SqlaTableRow),
       s.tables.find? (fun x => x.table_name == v && x.database_id == i) = some t →
       getOrCreateTable v i s = (.ok t, s)) ∧
    (∀ (v : String) (i : Nat) (s : OrmState),
       s.tables.find? (fun x => x.table_name == v && x.database_id == i) = none →
       s.commitOk s.commitCtr = true →
       getOrCreateTable v i s =
         (.ok ⟨s.nextId, v, i⟩,
          { s with tables := s.tables ++ [⟨s.nextId, v, i⟩],
                   nextId := s.nextId + 1,
                   commitCtr := s.commitCtr + 1 })) ∧
    (∀ (name viz_type : String) (dsid : Nat) (params : JVal) (s : OrmState) (c : SliceRow),
       s.slices.find? (fun x => x.slice_name == name) = some c →
       create_or_get_slice name viz_type dsid params s = (.ok c, s)) ∧
    (∀ (name viz_type : String) (dsid : Nat) (params : JVal) (s : OrmState),
       s.slices.find? (fun x => x.slice_name == name) = none →
       s.commitOk s.commitCtr = true →
       create_or_get_slice name viz_type dsid params s =
         (.ok ⟨s.nextId, name, viz_type, "table", dsid, params⟩,
          { s with slices := s.slices ++ [⟨s.nextId, name, viz_type, "table", dsid, params⟩],
                   nextId := s.nextId + 1,
                   commitCtr := s.commitCtr + 1 })) ∧
    (∀ (env : String → Option String) (cOk : Bool) (s : ConfigState),
       (s.databases.find? (fun d => d.database_name == "Manufacturing TimescaleDB")).isSome →
       init_manufacturing_database env cOk s = s) ∧
    (∀ (env : String → Option String) (s : ConfigState),
       s.databases.find? (fun d => d.database_name == "Manufacturing TimescaleDB") = none →
       (init_manufacturing_database env true s).databases =
         s.databases ++ [⟨s.nextId, "Manufacturing TimescaleDB", manufacturingUri env,
           true, true, true, true, true⟩]) ∧
    (∀ (s : OrmState) (mdb : DatabaseRow) (d : DashboardRow) (r : Option Nat) (s' : OrmState),
       s.databases.find? (fun x => x.database_name == "Manufacturing TimescaleDB") = some mdb →
       s.dashboards.find? (fun x => x.dashboard_title == "Manufacturing Overview") = some d →
       create_manufacturing_dashboard s = (.ok r, s') →
       s'.dashboards = s.dashboards ∧ r = some d.id) ∧
    (∀ (s : OrmState) (mdb : DatabaseRow) (r : Option Nat) (s' : OrmState),
       s.databases.find? (fun x => x.database_name == "Manufacturing TimescaleDB") = some mdb →
       s.dashboards.find? (fun x => x.dashboard_title == "Manufacturing Overview") = none →
       create_manufacturing_dashboard s = (.ok r, s') →
       ∃ dRow : DashboardRow, s'.dashboards = s.dashboards ++ [dRow] ∧
         dRow.dashboard_title = "Manufacturing Overview" ∧ r = some dRow.id) := by
  refine ⟨fun v i s t h => getOrCreateTable_found h, ?_,
    fun n vt d p s c h => create_or_get_slice_found h, ?_, ?_, ?_, ?_, ?_⟩
  · intro v i s h hc
    unfold getOrCreateTable
    rw [h]
    unfold obind commit
    dsimp only
    rw [if_pos hc]
  · intro n vt d p s h hc
    unfold create_or_get_slice
    rw [h]
    unfold obind commit
    dsimp only
    rw [if_pos hc]
  · intro env cOk s h
    unfold init_manufacturing_database
    rcases hf : s.databases.find? (fun d => d.database_name == "Manufacturing TimescaleDB")
      with _ | d
    · rw [hf] at h
      exact absurd h (by simp)
    · rw [hf]
  · intro env s h
    unfold init_manufacturing_database
    rw [h]
    rfl
  · intro s mdb d r s' hdb hd hrun
    obtain ⟨_, _, _, _, _, c1, c2, c3, _, _, _, hmatch⟩ := cmdSpec hdb hrun
    rw [hd] at hmatch
    exact hmatch
  · intro s mdb r s' hdb hd hrun
    obtain ⟨_, _, _, _, _, c1, c2, c3, _, _, _, hmatch⟩ := cmdSpec hdb hrun
    rw [hd] at hmatch
    dsimp only at hmatch
    obtain ⟨dRow, hds, ht, _, _, _, _, hr⟩ := hmatch
    exact ⟨dRow, hds, ht, hr⟩

/-- ORM session for the C3 witness with every entity present. -/
def c3Full : OrmState :=
  ⟨[⟨1, "Manufacturing TimescaleDB", "uri", true, true, true, true, true⟩],
   [⟨2, "dashboard_production_overview", 1⟩, ⟨3, "dashboard_equipment_performance", 1⟩,
    ⟨4, "dashboard_realtime_kpis", 1⟩],
   [⟨5, "Production Trend - 24 Hours", "line", "table", 2, .jnull⟩,
    ⟨6, "Current OEE", "big_number_total", "table", 4, .jnull⟩,
    ⟨7, "Equipment Performance", "table", "table", 3, .jnull⟩],
   [⟨8, "Manufacturing Overview", "manufacturing-overview", [5, 6, 7], .jnull, true⟩],
   9, 0, fun _ => true⟩

/-- ORM session for the C3 witness with no tables, slices or dashboards. -/
def c3Fresh : OrmState :=
  ⟨[⟨1, "Manufacturing TimescaleDB", "uri", true, true, true, true, true⟩],
   [], [], [], 2, 0, fun _ => true⟩

/-- Like `c3Full` but with the dashboard missing. -/
def c3NoDash : OrmState := { c3Full with dashboards := [], nextId := 8 }

/-- The state a run from `c3NoDash` leaves: exactly one dashboard appended. -/
def c3NoDashAfter : OrmState :=
  { c3NoDash with
    dashboards := [⟨8, "Manufacturing Overview", "manufacturing-overview", [5, 6, 7],
      ormPosition 5 6 7, true⟩],
    nextId := 9,
    commitCtr := 1 }

/-- Empty configuration state for the C3 witness. -/
def c3CfgEmpty : ConfigState := ⟨[], 1, [], []⟩

/-- Configuration state for the C3 witness with the record present. -/
def c3CfgPresent : ConfigState :=
  ⟨[⟨1, "Manufacturing TimescaleDB", "uri", true, true, true, true, true⟩], 2, [], []⟩

theorem C3_witness :
    getOrCreateTable "dashboard_production_overview" 1 c3Full =
      (.ok ⟨2, "dashboard_production_overview", 1⟩, c3Full) ∧
    getOrCreateTable "new_view" 1 c3Fresh =
      (.ok ⟨2, "new_view", 1⟩,
       { c3Fresh with
         tables := [⟨2, "new_view", 1⟩],
         nextId := 3,
         commitCtr := 1 }) ∧
    create_or_get_slice "Current OEE" "line" 3 .jnull c3Full =
      (.ok ⟨6, "Current OEE", "big_number_total", "table", 4, .jnull⟩, c3Full) ∧
    create_or_get_slice "New Chart" "line" 3 .jnull c3Fresh =
      (.ok ⟨2, "New Chart", "line", "table", 3, .jnull⟩,
       { c3Fresh with
         slices := [⟨2, "New Chart", "line", "table", 3, .jnull⟩],
         nextId := 3,
         commitCtr := 1 }) ∧
    init_manufacturing_database (fun _ => none) true c3CfgPresent = c3CfgPresent ∧
    (init_manufacturing_database (fun _ => none) true c3CfgEmpty).databases =
      [⟨1, "Manufacturing TimescaleDB", manufacturingUri (fun _ => none),
        true, true, true, true, true⟩] ∧
    (create_manufacturing_dashboard c3Full = (.ok (some 8), c3Full)) ∧
    c3NoDashAfter.dashboards.map (fun d => d.dashboard_title) = ["Manufacturing Overview"] := by
  obtain ⟨hds7, hr7⟩ := C3_lookup_or_create.2.2.2.2.2.2.1 c3Full
    ⟨1, "Manufacturing TimescaleDB", "uri", true, true, true, true, true⟩
    ⟨8, "Manufacturing Overview", "manufacturing-overview", [5, 6, 7], .jnull, true⟩
    (some 8) c3Full rfl rfl rfl
  obtain ⟨dRow, hds8, ht8, hr8⟩ := C3_lookup_or_create.2.2.2.2.2.2.2 c3NoDash
    ⟨1, "Manufacturing TimescaleDB", "uri", true, true, true, true, true⟩
    (some 8) c3NoDashAfter rfl rfl rfl
  refine ⟨C3_lookup_or_create.1 "dashboard_production_overview" 1 c3Full
      ⟨2, "dashboard_production_overview", 1⟩ rfl,
    C3_lookup_or_create.2.1 "new_view" 1 c3Fresh rfl rfl,
    C3_lookup_or_create.2.2.1 "Current OEE" "line" 3 .jnull c3Full
      ⟨6, "Current OEE", "big_number_total", "table", 4, .jnull⟩ rfl,
    C3_lookup_or_create.2.2.2.1 "New Chart" "line" 3 .jnull c3Fresh rfl rfl,
    C3_lookup_or_create.2.2.2.2.1 (fun _ => none) true c3CfgPresent rfl,
    C3_lookup_or_create.2.2.2.2.2.1 (fun _ => none) c3CfgEmpty rfl,
    rfl, ?_⟩
  rw [hds8]
  simp [ht8, c3NoDash]

/-- C5: on the REST path every failed creation step returns `None` with no
entity stored (the request is still logged), and every downstream step
guards on the previous results: a chart whose dataset is missing from the
dict is skipped without issuing any request, a dashboard with no charts is
skipped without issuing any request, and when all dataset creations fail the
overview builder returns `None` having issued only the dataset requests. -/
theorem C5_failed_steps_skip_downstream :
    (∀ (o : Oracle) (t : String) (dbid : Nat) (srv : Server),
       o.datasetOk t = false →
       create_dataset o t dbid srv = (none, { srv with log := srv.log ++ [Req.dsReq t] })) ∧
    (∀ (o : Oracle) (cfg : ChartConfig) (srv : Server),
       o.chartOk cfg.slice_name = false →
       create_chart o cfg srv =
         (none, { srv with log := srv.log ++ [Req.chartReq cfg.slice_name] })) ∧
    (∀ (o : Oracle) (cfg : DashConfig) (srv : Server),
       o.dashOk cfg.dashboard_title = false →
       create_dashboard o cfg srv =
         (none, { srv with log := srv.log ++ [Req.dashReq cfg.dashboard_title] })) ∧
    (∀ (o : Oracle) (ds : List (String × Nat)) (view : String) (mk : Nat → ChartConfig)
       (w hgt : Nat) (acc : List ChartPos) (srv : Server),
       ds.lookup view = none →
       addChartStep o ds view mk w hgt acc srv = (acc, srv)) ∧
    (∀ (o : Oracle) (t sl : String) (css : Option String) (jm : Option JVal) (srv : Server),
       dashboardStep o t sl css jm [] srv = (none, srv)) ∧
    (∀ (o : Oracle) (dbid : Nat) (srv : Server),
       (∀ v ∈ overviewViews, o.datasetOk v = false) →
       create_manufacturing_overview_dashboard o dbid srv =
         (none, { srv with log := srv.log ++ overviewViews.map Req.dsReq })) := by
  refine ⟨fun o t dbid srv h => create_dataset_fail h,
    fun o cfg srv h => create_chart_fail h,
    fun o cfg srv h => create_dashboard_fail h, ?_,
    fun o t sl css jm srv => dashboardStep_nil o t sl css jm srv, ?_⟩
  · intro o ds view mk w hgt acc srv h
    unfold addChartStep
    rw [h]
  · intro o dbid srv h
    unfold create_manufacturing_overview_dashboard
    rw [createDatasetsLoop_all_fail o dbid overviewViews srv h]

/-- Oracle for the C5 witness: the server rejects every creation request. -/
def c5Oracle : Oracle :=
  ⟨fun _ => some 200, true, true, fun _ => false, fun _ => false, fun _ => false⟩

/-- Server for the C5 witness. -/
def c5Srv : Server :=
  ⟨[⟨1, "Manufacturing TimescaleDB", "uri", true, true, true, true, true⟩], [], [], [], 2, []⟩

theorem C5_witness :
    create_dataset c5Oracle "v_kpi_summary" 1 c5Srv =
      (none, { c5Srv with log := [Req.dsReq "v_kpi_summary"] }) ∧
    create_chart c5Oracle (overviewOeeChart 1) c5Srv =
      (none, { c5Srv with log := [Req.chartReq "Current OEE"] }) ∧
    create_dashboard c5Oracle ⟨"Manufacturing Overview", "slug", .jobj [], none, none⟩ c5Srv =
      (none, { c5Srv with log := [Req.dashReq "Manufacturing Overview"] }) ∧
    addChartStep c5Oracle [("v_kpi_summary", 3)] "v_quality_metrics" overviewQualityChart
      6 3 [] c5Srv = ([], c5Srv) ∧
    dashboardStep c5Oracle "Manufacturing Overview" "slug" none none [] c5Srv =
      (none, c5Srv) ∧
    create_manufacturing_overview_dashboard c5Oracle 1 c5Srv =
      (none, { c5Srv with log := overviewViews.map Req.dsReq }) :=
  ⟨C5_failed_steps_skip_downstream.1 c5Oracle "v_kpi_summary" 1 c5Srv rfl,
   C5_failed_steps_skip_downstream.2.1 c5Oracle (overviewOeeChart 1) c5Srv rfl,
   C5_failed_steps_skip_downstream.2.2.1 c5Oracle
     ⟨"Manufacturing Overview", "slug", .jobj [], none, none⟩ c5Srv rfl,
   C5_failed_steps_skip_downstream.2.2.2.1 c5Oracle [("v_kpi_summary", 3)]
     "v_quality_metrics" overviewQualityChart 6 3 [] c5Srv rfl,
   C5_failed_steps_skip_downstream.2.2.2.2.1 c5Oracle "Manufacturing Overview" "slug"
     none none c5Srv,
   C5_failed_steps_skip_downstream.2.2.2.2.2 c5Oracle 1 c5Srv (fun _ _ => rfl)⟩

/-- C9: when the dashboard already exists (and the database row is present,
with commits succeeding), the ORM run returns the existing dashboard's id
and adds no dashboard — but it still performs the dataset and chart
lookup-or-create steps first, so the final state holds a dataset for each of
the three views and a slice for each of the three chart names. -/
theorem C9_existing_dashboard_still_provisions :
    ∀ (s : OrmState) (mdb : DatabaseRow) (d : DashboardRow),
      s.databases.find? (fun x => x.database_name == "Manufacturing TimescaleDB") = some mdb →
      s.dashboards.find? (fun x => x.dashboard_title == "Manufacturing Overview") = some d →
      (∀ n, s.commitOk n = true) →
      ∃ s', create_manufacturing_dashboard s = (.ok (some d.id), s') ∧
        s'.dashboards = s.dashboards ∧
        (∃ t, s'.tables.find?
          (fun x => x.table_name == "dashboard_production_overview" && x.database_id == mdb.id)
          = some t) ∧
        (∃ t, s'.tables.find?
          (fun x => x.table_name == "dashboard_equipment_performance" && x.database_id == mdb.id)
          = some t) ∧
        (∃ t, s'.tables.find?
          (fun x => x.table_name == "dashboard_realtime_kpis" && x.database_id == mdb.id)
          = some t) ∧
        (∃ c, s'.slices.find? (fun x => x.slice_name == "Production Trend - 24 Hours") = some c) ∧
        (∃ c, s'.slices.find? (fun x => x.slice_name == "Current OEE") = some c) ∧
        (∃ c, s'.slices.find? (fun x => x.slice_name == "Equipment Performance") = some c) := by
  intro s mdb d hdb hd hok
  obtain ⟨r, s', hrun⟩ := cmdProgress hdb hok
  obtain ⟨_, _, ht1, ht2, ht3, c1, c2, c3, f4, f5, f6, hmatch⟩ := cmdSpec hdb hrun
  rw [hd] at hmatch
  dsimp only at hmatch
  obtain ⟨hds, hr⟩ := hmatch
  subst hr
  exact ⟨s', hrun, hds, ht1, ht2, ht3, ⟨c1, f4⟩, ⟨c2, f5⟩, ⟨c3, f6⟩⟩

/-- Database row for the C9 witness. -/
def c9Mdb : DatabaseRow := ⟨1, "Manufacturing TimescaleDB", "uri", true, true, true, true, true⟩

/-- Dashboard row for the C9 witness. -/
def c9Dash : DashboardRow := ⟨2, "Manufacturing Overview", "manufacturing-overview", [], .jnull, true⟩

/-- ORM session for the C9 witness: the dashboard exists, nothing else does. -/
def c9S : OrmState := ⟨[c9Mdb], [], [], [c9Dash], 3, 0, fun _ => true⟩

theorem C9_witness :
    (create_manufacturing_dashboard c9S).1 = .ok (some 2) ∧
    (create_manufacturing_dashboard c9S).2.dashboards = c9S.dashboards ∧
    (create_manufacturing_dashboard c9S).2.tables.length = 3 ∧
    (create_manufacturing_dashboard c9S).2.slices.length = 3 := by
  obtain ⟨s', hrun, hds, _⟩ := C9_existing_dashboard_still_provisions c9S c9Mdb c9Dash
    rfl rfl (fun _ => rfl)
  exact ⟨by rw [hrun]; rfl, by rw [hrun]; exact hds, rfl, rfl⟩

/-- C6: charts are created first and the dashboard last, and the layout tree
references exactly the created charts.  (a) A creating ORM run stores one
dashboard whose `position_json` is the fixed layout wired to the ids of the
three slices obtained beforehand.  (b) That layout holds exactly one CHART
node per chart, whose `meta.chartId` is the respective slice id.  (c) On the
REST path, a run of the overview builder issues dataset requests, then chart
requests, then at most one dashboard request (so the dashboard POST follows
every chart POST); the collected chart ids equal the ids of the chart rows
the server gained, pairwise distinct, and a created dashboard's layout
object is built over exactly those entries.  (d)/(e) Each layout entry is
keyed by its chart id and carries `meta.chartId` equal to it, one entry per
collected chart. -/
theorem C6_charts_first_layout_matches :
    (∀ (s : OrmState) (mdb : DatabaseRow) (r : Option Nat) (s' : OrmState),
       s.databases.find? (fun x => x.database_name == "Manufacturing TimescaleDB") = some mdb →
       s.dashboards.find? (fun x => x.dashboard_title == "Manufacturing Overview") = none →
       create_manufacturing_dashboard s = (.ok r, s') →
       ∃ c1 c2 c3 dRow,
         s'.slices.find? (fun x => x.slice_name == "Production Trend - 24 Hours") = some c1 ∧
         s'.slices.find? (fun x => x.slice_name == "Current OEE") = some c2 ∧
         s'.slices.find? (fun x => x.slice_name == "Equipment Performance") = some c3 ∧
         s'.dashboards = s.dashboards ++ [dRow] ∧
         dRow.slice_ids = [c1.id, c2.id, c3.id] ∧
         dRow.position_json = ormPosition c1.id c2.id c3.id ∧
         r = some dRow.id) ∧
    (∀ a b c : Nat,
       ((ormPosition a b c).objLookup "CHART-prod").bind JVal.metaChartId = some (.jnum a) ∧
       ((ormPosition a b c).objLookup "CHART-oee").bind JVal.metaChartId = some (.jnum b) ∧
       ((ormPosition a b c).objLookup "CHART-equipment").bind JVal.metaChartId
         = some (.jnum c)) ∧
    (∀ (o : Oracle) (dbid : Nat) (srv : Server), 1 ≤ srv.nextId →
       ∃ (cs : List ChartPos) (nr : List ChartRow) (l1 l2 l3 : List Req),
         (create_manufacturing_overview_dashboard o dbid srv).2.databases = srv.databases ∧
         (create_manufacturing_overview_dashboard o dbid srv).2.charts = srv.charts ++ nr ∧
         cs.map (fun c => c.id) = nr.map (fun c => c.id) ∧
         (cs.map (fun c => c.id)).Nodup ∧
         (create_manufacturing_overview_dashboard o dbid srv).2.log =
           srv.log ++ l1 ++ l2 ++ l3 ∧
         (∀ e ∈ l1, ∃ nm, e = Req.dsReq nm) ∧
         (∀ e ∈ l2, ∃ nm, e = Req.chartReq nm) ∧
         (∀ e ∈ l3, ∃ nm, e = Req.dashReq nm) ∧
         ((create_manufacturing_overview_dashboard o dbid srv).1 = none →
           (create_manufacturing_overview_dashboard o dbid srv).2.dashboards
             = srv.dashboards) ∧
         (∀ did, (create_manufacturing_overview_dashboard o dbid srv).1 = some did →
           (create_manufacturing_overview_dashboard o dbid srv).2.dashboards =
             srv.dashboards ++
               [⟨did, ⟨"Manufacturing Overview", "manufacturing-overview",
                 .jobj (cs.map chartPosEntry), some "", some overviewJsonMetadata⟩⟩] ∧
           l3 = [Req.dashReq "Manufacturing Overview"])) ∧
    (∀ cp : ChartPos,
       (chartPosEntry cp).1 = "CHART-" ++ toString cp.id ∧
       JVal.metaChartId (chartPosEntry cp).2 = some (.jnum cp.id)) ∧
    (∀ cs : List ChartPos, (cs.map chartPosEntry).length = cs.length) := by
  refine ⟨?_, fun a b c => ⟨rfl, rfl, rfl⟩, overview_run_spec,
    fun cp => ⟨rfl, rfl⟩, fun cs => by simp⟩
  intro s mdb r s' hdb hd hrun
  obtain ⟨_, _, _, _, _, c1, c2, c3, f4, f5, f6, hmatch⟩ := cmdSpec hdb hrun
  rw [hd] at hmatch
  dsimp only at hmatch
  obtain ⟨dRow, hds, _, _, hsl, hpos, _, hr⟩ := hmatch
  exact ⟨c1, c2, c3, dRow, f4, f5, f6, hds, hsl, hpos, hr⟩

/-- ORM session for the C6 witness: datasets and slices present, no dashboard. -/
def c6S : OrmState :=
  ⟨[⟨1, "Manufacturing TimescaleDB", "uri", true, true, true, true, true⟩],
   [⟨2, "dashboard_production_overview", 1⟩, ⟨3, "dashboard_equipment_performance", 1⟩,
    ⟨4, "dashboard_realtime_kpis", 1⟩],
   [⟨5, "Production Trend - 24 Hours", "line", "table", 2, .jnull⟩,
    ⟨6, "Current OEE", "big_number_total", "table", 4, .jnull⟩,
    ⟨7, "Equipment Performance", "table", "table", 3, .jnull⟩],
   [], 8, 0, fun _ => true⟩

/-- The state the creating run leaves from `c6S`. -/
def c6SAfter : OrmState :=
  { c6S with
    dashboards := [⟨8, "Manufacturing Overview", "manufacturing-overview", [5, 6, 7],
      ormPosition 5 6 7, true⟩],
    nextId := 9,
    commitCtr := 1 }

/-- Oracle for the C6 witness REST clause: every request accepted. -/
def c6Oracle : Oracle :=
  ⟨fun _ => some 200, true, true, fun _ => true, fun _ => true, fun _ => true⟩

/-- Server for the C6 witness REST clause. -/
def c6Srv : Server :=
  ⟨[⟨1, "Manufacturing TimescaleDB", "uri", true, true, true, true, true⟩], [], [], [], 2, []⟩

theorem C6_witness :
    c6SAfter.dashboards.map (fun d => d.position_json) = [ormPosition 5 6 7] ∧
    (create_manufacturing_overview_dashboard c6Oracle 1 c6Srv).2.databases =
      c6Srv.databases := by
  obtain ⟨c1, c2, c3, dRow, f1, f2, f3, hdash, hsl, hpos, hr⟩ :=
    C6_charts_first_layout_matches.1 c6S
      ⟨1, "Manufacturing TimescaleDB", "uri", true, true, true, true, true⟩
      (some 8) c6SAfter rfl rfl rfl
  obtain ⟨cs, nr, l1, l2, l3, hdbs, _⟩ :=
    C6_charts_first_layout_matches.2.2.1 c6Oracle 1 c6Srv (by decide)
  have h1 : c1 = ⟨5, "Production Trend - 24 Hours", "line", "table", 2, .jnull⟩ :=
    Option.some.inj (f1.symm.trans rfl)
  have h2 : c2 = ⟨6, "Current OEE", "big_number_total", "table", 4, .jnull⟩ :=
    Option.some.inj (f2.symm.trans rfl)
  have h3 : c3 = ⟨7, "Equipment Performance", "table", "table", 3, .jnull⟩ :=
    Option.some.inj (f3.symm.trans rfl)
  subst h1; subst h2; subst h3
  refine ⟨?_, hdbs⟩
  rw [hdash]
  simp [c6S, hpos]
